import Mathlib

/-!
# Verification of the LEAPS options-scanner core

A shallow embedding of the scanning pipeline of the LEAPS2.0 backend
(`backend/scanner/*`, `backend/sentiment/aggregator.py`), together with
theorems settling the frozen claims about it.

Modelling conventions:
* Python floats are modelled as `ℚ` wherever the code only does field
  arithmetic and comparisons, and as `ℝ` where it applies transcendental
  functions (Black-Scholes greeks and probability of profit).
* Python `round(x, n)` (round-half-to-even on the scaled value) is modelled
  by `roundTo n`.
* Calendar dates are modelled as integers (days); `date.today()` becomes an
  explicit `today : ℤ` parameter, and `(expiry - date.today()).days` becomes
  `expiry - today`.
* Clock reads (`datetime.utcnow().isoformat()`) become an explicit
  `now : String` parameter; the elapsed-seconds stopwatch becomes an explicit
  `elapsed : ℚ` parameter.
* Network providers and the cache are modelled as a record of pure functions
  (`Providers`); per-symbol exception recovery never fires in the pure model.
-/

namespace LeapsScanner

/-! ## Rounding

Python's builtin `round(x, n)` rounds `x * 10^n` half-to-even and divides
back.  `roundHalfEven` is the integer rounding; `roundTo n` the decimal one. -/

/-- Round to the nearest integer, ties to the even integer
(Python's banker's rounding). -/
def roundHalfEven {α : Type} [LinearOrderedField α] [FloorRing α] (x : α) : ℤ :=
  if x - ⌊x⌋ < 1 / 2 then ⌊x⌋
  else if 1 / 2 < x - ⌊x⌋ then ⌊x⌋ + 1
  else if Even ⌊x⌋ then ⌊x⌋ else ⌊x⌋ + 1

/-- Python's `round(x, n)`: round `x` to `n` decimal places, ties to even. -/
def roundTo {α : Type} [LinearOrderedField α] [FloorRing α] (n : ℕ) (x : α) : α :=
  (roundHalfEven (x * 10 ^ n) : α) / 10 ^ n

/-- Standard normal density (`scipy.stats.norm.pdf`). -/
noncomputable def normPdf (x : ℝ) : ℝ :=
  Real.exp (-(x ^ 2) / 2) / Real.sqrt (2 * Real.pi)

/-- Standard normal cumulative distribution (`scipy.stats.norm.cdf`). -/
noncomputable def normCdf (x : ℝ) : ℝ :=
  ∫ t in Set.Iic x, normPdf t

/-! ## Black-Scholes greeks (`backend/scanner/greeks_calculator.py`)

The Python function takes `option_type: str` and tests
`option_type.lower() == "call"`; we model the already-normalised kind with
the `OptionType` enum from `backend/models/options.py`. -/

/-- Model of `OptionType` from `backend/models/options.py`. -/
inductive OptionType where
  | call
  | put
deriving DecidableEq, Repr

/-- Result record of `compute_greeks` (the returned dict). -/
structure Greeks where
  delta : ℝ
  gamma : ℝ
  theta : ℝ
  vega : ℝ
  rho : ℝ

/-- Model of `compute_greeks` from `greeks_calculator.py` (lines 12-80): Black-Scholes
greeks, each rounded to 6 decimals; all-zero on degenerate input. -/
noncomputable def compute_greeks (S K T r sigma : ℝ) (option_type : OptionType) : Greeks :=
  if T ≤ 0 ∨ sigma ≤ 0 ∨ S ≤ 0 ∨ K ≤ 0 then
    { delta := 0, gamma := 0, theta := 0, vega := 0, rho := 0 }
  else
    let d1 := (Real.log (S / K) + (r + 0.5 * sigma ^ 2) * T) / (sigma * Real.sqrt T)
    let d2 := d1 - sigma * Real.sqrt T
    let is_call := option_type = OptionType.call
    let delta := if is_call then normCdf d1 else normCdf d1 - 1
    let gamma := normPdf d1 / (S * sigma * Real.sqrt T)
    let theta :=
      if is_call then
        (-(S * normPdf d1 * sigma) / (2 * Real.sqrt T)
          - r * K * Real.exp (-r * T) * normCdf d2) / 365
      else
        (-(S * normPdf d1 * sigma) / (2 * Real.sqrt T)
          + r * K * Real.exp (-r * T) * normCdf (-d2)) / 365
    let vega := S * normPdf d1 * Real.sqrt T / 100
    let rho :=
      if is_call then K * T * Real.exp (-r * T) * normCdf d2 / 100
      else -K * T * Real.exp (-r * T) * normCdf (-d2) / 100
    { delta := roundTo 6 delta
      gamma := roundTo 6 gamma
      theta := roundTo 6 theta
      vega := roundTo 6 vega
      rho := roundTo 6 rho }

/-- Model of `compute_probability_of_profit` from `greeks_calculator.py` (lines 83-96).
Note the time floor `T = max(dte / 365, 1 / 365)`: `T ≤ 0` can never hold. -/
noncomputable def compute_probability_of_profit
    (breakeven spot iv : ℝ) (dte : ℤ) : ℝ :=
  let T : ℝ := max ((dte : ℝ) / 365) (1 / 365)
  if iv ≤ 0 ∨ T ≤ 0 ∨ spot ≤ 0 ∨ breakeven ≤ 0 then 0.5
  else
    let d2 := (Real.log (spot / breakeven) - 0.5 * iv ^ 2 * T) / (iv * Real.sqrt T)
    roundTo 4 (max 0.01 (min 0.99 (normCdf d2)))

/-! ## Options data model (`backend/models/options.py`)

Expirations are in days (`ℤ`); prices, strikes and greeks carried on quotes
are `ℚ`; `probability_of_profit` on a candidate is the one `ℝ`-valued,
Black-Scholes-derived field. -/

/-- Model of `SpreadType` from `backend/models/options.py`. -/
inductive SpreadType where
  | bull_call
  | bear_put
  | leap_call
  | leap_put
  | leaps_spread_call
deriving DecidableEq, Repr

/-- Model of `OptionQuote` from `backend/models/options.py`. -/
structure OptionQuote where
  symbol : String
  underlying : String
  expiration : ℤ
  strike : ℚ
  option_type : OptionType
  bid : ℚ
  ask : ℚ
  mid : ℚ
  last : ℚ
  volume : ℤ
  open_interest : ℤ
  implied_volatility : ℚ
  delta : ℚ
  gamma : ℚ
  theta : ℚ
  vega : ℚ
  rho : ℚ
deriving DecidableEq, Repr

/-- Model of `SpreadCandidate` from `backend/models/options.py`;
`short_leg = none` for single-leg LEAPS. -/
structure SpreadCandidate where
  underlying : String
  spread_type : SpreadType
  expiration : ℤ
  dte : ℤ
  long_leg : OptionQuote
  short_leg : Option OptionQuote
  net_debit : ℚ
  max_profit : ℚ
  max_loss : ℚ
  breakeven : ℚ
  probability_of_profit : ℝ
  bid_ask_quality_score : ℚ
  iv_rank : ℚ
  spread_width : ℚ

/-! ## Spread construction (`backend/scanner/spread_constructor.py`)

The two nested `for` loops with `break`/`continue` become structural
recursion (`bull_call_loop`, `bear_put_loop`) plus `Option`-returning
candidate builders; Python's stable `sorted` becomes `List.insertionSort`
(also stable). -/

/-- Model of `MAX_OTM_PCT` (spread_constructor.py line 15). -/
def MAX_OTM_PCT : ℚ := 0.20

/-- Model of `MAX_SPREAD_WIDTH_STRIKES` (spread_constructor.py line 19). -/
def MAX_SPREAD_WIDTH_STRIKES : ℕ := 5

/-- Model of `SpreadConstructor._group_by_expiry`: dict-insertion grouping — keys in
first-seen order, quotes appended within a key's group. -/
def group_by_expiry (options : List OptionQuote) : List (ℤ × List OptionQuote) :=
  options.foldl (fun acc o =>
    if acc.any (fun g => g.1 = o.expiration) then
      acc.map (fun g => if g.1 = o.expiration then (g.1, g.2 ++ [o]) else g)
    else acc ++ [(o.expiration, [o])]) []

/-- Per-leg bid-ask tightness (inner `leg_quality` of
`SpreadConstructor._bid_ask_quality`). -/
def leg_quality (opt : OptionQuote) : ℚ :=
  let mid := (opt.bid + opt.ask) / 2
  if mid ≤ 0 then 0
  else max 0 (1 - ((opt.ask - opt.bid) / mid) / 0.15)

/-- Model of `SpreadConstructor._bid_ask_quality` (two legs, averaged, rounded). -/
def bid_ask_quality (long_leg short_leg : OptionQuote) : ℚ :=
  roundTo 4 ((leg_quality long_leg + leg_quality short_leg) / 2)

/-- Model of `SpreadConstructor._bid_ask_quality_single`. -/
def bid_ask_quality_single (opt : OptionQuote) : ℚ :=
  let mid := (opt.bid + opt.ask) / 2
  if mid ≤ 0 then 0
  else roundTo 4 (max 0 (1 - ((opt.ask - opt.bid) / mid) / 0.15))

/-- Body of the inner short-leg loop of `_build_bull_call_spreads`
(lines 78-121): `none` encodes the `continue` branches. -/
noncomputable def mk_bull_call_candidate (spot : ℚ) (dte expiry : ℤ)
    (spread_type : SpreadType) (long_leg short_leg : OptionQuote) :
    Option SpreadCandidate :=
  if short_leg.bid ≤ 0 then none
  else
    let net_debit := roundTo 4 (long_leg.ask - short_leg.bid)
    if net_debit ≤ 0 then none
    else
      let spread_width := roundTo 2 (short_leg.strike - long_leg.strike)
      let max_profit := roundTo 4 (spread_width - net_debit)
      if max_profit ≤ 0 then none
      else
        let breakeven := roundTo 4 (long_leg.strike + net_debit)
        some
          { underlying := long_leg.underlying
            spread_type := spread_type
            expiration := expiry
            dte := dte
            long_leg := long_leg
            short_leg := some short_leg
            net_debit := net_debit
            max_profit := max_profit
            max_loss := net_debit
            breakeven := breakeven
            probability_of_profit :=
              compute_probability_of_profit (breakeven : ℝ) (spot : ℝ)
                (long_leg.implied_volatility : ℝ) dte
            bid_ask_quality_score := bid_ask_quality long_leg short_leg
            iv_rank := 0
            spread_width := spread_width }

/-- Outer long-leg loop of `_build_bull_call_spreads`: the OTM bound
(`long_leg.strike > spot * (1 + MAX_OTM_PCT)`) is a `break`, and each long
leg pairs with the next `MAX_SPREAD_WIDTH_STRIKES` strikes above it. -/
noncomputable def bull_call_loop (spot : ℚ) (dte expiry : ℤ)
    (spread_type : SpreadType) : List OptionQuote → List SpreadCandidate
  | [] => []
  | long_leg :: rest =>
    if spot * (1 + MAX_OTM_PCT) < long_leg.strike then []
    else
      (rest.take MAX_SPREAD_WIDTH_STRIKES).filterMap
        (mk_bull_call_candidate spot dte expiry spread_type long_leg)
      ++ bull_call_loop spot dte expiry spread_type rest

/-- Model of `SpreadConstructor._build_bull_call_spreads` (lines 51-122),
parameterised by `today` (`date.today()`). -/
noncomputable def build_bull_call_spreads (today : ℤ) (calls : List OptionQuote)
    (spot : ℚ) (spread_type : SpreadType := SpreadType.bull_call) :
    List SpreadCandidate :=
  (group_by_expiry calls).flatMap fun g =>
    bull_call_loop spot (g.1 - today) g.1 spread_type
      (g.2.insertionSort (fun a b => a.strike ≤ b.strike))

/-- Body of the inner short-leg loop of `_build_bear_put_spreads`
(lines 146-189); includes the final clamp and inversion of the PoP. -/
noncomputable def mk_bear_put_candidate (spot : ℚ) (dte expiry : ℤ)
    (long_leg short_leg : OptionQuote) : Option SpreadCandidate :=
  if short_leg.bid ≤ 0 then none
  else
    let net_debit := roundTo 4 (long_leg.ask - short_leg.bid)
    if net_debit ≤ 0 then none
    else
      let spread_width := roundTo 2 (long_leg.strike - short_leg.strike)
      let max_profit := roundTo 4 (spread_width - net_debit)
      if max_profit ≤ 0 then none
      else
        let breakeven := roundTo 4 (long_leg.strike - net_debit)
        let pop := 1 - compute_probability_of_profit (breakeven : ℝ) (spot : ℝ)
          (long_leg.implied_volatility : ℝ) dte
        some
          { underlying := long_leg.underlying
            spread_type := SpreadType.bear_put
            expiration := expiry
            dte := dte
            long_leg := long_leg
            short_leg := some short_leg
            net_debit := net_debit
            max_profit := max_profit
            max_loss := net_debit
            breakeven := breakeven
            probability_of_profit := roundTo 4 (max 0.01 (min 0.99 pop))
            bid_ask_quality_score := bid_ask_quality long_leg short_leg
            iv_rank := 0
            spread_width := spread_width }

/-- Outer long-leg loop of `_build_bear_put_spreads`: legs sorted by
descending strike; the moneyness bound
(`long_leg.strike < spot * (1 - MAX_OTM_PCT)`) is a `break`. -/
noncomputable def bear_put_loop (spot : ℚ) (dte expiry : ℤ) :
    List OptionQuote → List SpreadCandidate
  | [] => []
  | long_leg :: rest =>
    if long_leg.strike < spot * (1 - MAX_OTM_PCT) then []
    else
      (rest.take MAX_SPREAD_WIDTH_STRIKES).filterMap
        (mk_bear_put_candidate spot dte expiry long_leg)
      ++ bear_put_loop spot dte expiry rest

/-- Model of `SpreadConstructor._build_bear_put_spreads` (lines 124-190). -/
noncomputable def build_bear_put_spreads (today : ℤ) (puts : List OptionQuote)
    (spot : ℚ) : List SpreadCandidate :=
  (group_by_expiry puts).flatMap fun g =>
    bear_put_loop spot (g.1 - today) g.1
      (g.2.insertionSort (fun a b => b.strike ≤ a.strike))

/-- Model of `SpreadConstructor._build_leaps` (lines 192-241): single-leg deep-ITM
candidates; `9999.0` is the max-profit sentinel for calls *and* puts. -/
noncomputable def build_leaps (today : ℤ) (options : List OptionQuote)
    (spot : ℚ) (spread_type : SpreadType) : List SpreadCandidate :=
  let is_call := spread_type = SpreadType.leap_call
  options.filterMap fun opt =>
    let dte := opt.expiration - today
    if dte < 365 then none
    else if |opt.delta| < 0.65 then none
    else if opt.ask ≤ 0 then none
    else
      some
        { underlying := opt.underlying
          spread_type := spread_type
          expiration := opt.expiration
          dte := dte
          long_leg := opt
          short_leg := none
          net_debit := opt.ask
          max_profit := 9999.0
          max_loss := opt.ask
          breakeven := if is_call then opt.strike + opt.ask else opt.strike - opt.ask
          probability_of_profit := 0.5
          bid_ask_quality_score := bid_ask_quality_single opt
          iv_rank := 0
          spread_width := 0 }

/-- Model of `SpreadConstructor.build_all_spreads` (lines 28-49). -/
noncomputable def build_all_spreads (today : ℤ) (calls puts : List OptionQuote)
    (strategies : List SpreadType) (spot_price : ℚ) : List SpreadCandidate :=
  strategies.flatMap fun strategy =>
    match strategy with
    | SpreadType.bull_call =>
        build_bull_call_spreads today calls spot_price SpreadType.bull_call
    | SpreadType.leaps_spread_call =>
        build_bull_call_spreads today calls spot_price SpreadType.leaps_spread_call
    | SpreadType.bear_put => build_bear_put_spreads today puts spot_price
    | SpreadType.leap_call => build_leaps today calls spot_price SpreadType.leap_call
    | SpreadType.leap_put => build_leaps today puts spot_price SpreadType.leap_put

/-! ## Scanner filters (`backend/models/scanner.py`) -/

/-- Model of `ScannerFilters` from `backend/models/scanner.py` (pydantic defaults are
carried by `default_filters` below; range validation is transport-level and
out of scope). -/
structure ScannerFilters where
  symbols : Option (List String)
  strategies : List SpreadType
  min_dte : ℤ
  max_dte : ℤ
  leaps_min_dte : ℤ
  leaps_max_dte : ℤ
  min_iv_rank : ℚ
  max_iv_rank : ℚ
  min_volume : ℤ
  min_open_interest : ℤ
  max_bid_ask_spread_pct : ℚ
  min_fundamental_score : ℚ
  min_sentiment_score : ℚ
  min_probability_of_profit : ℚ
  min_ml_quality_score : ℚ
  max_results : ℕ
  target_spread_widths : List ℚ
  max_spread_width : Option ℚ
  max_debit_pct_of_spread : ℚ
  max_net_debit : Option ℚ
  min_long_delta : ℚ
  max_long_delta : ℚ
deriving Repr

/-- The pydantic field defaults of `ScannerFilters`. -/
def default_filters : ScannerFilters where
  symbols := none
  strategies := [SpreadType.leap_call, SpreadType.leaps_spread_call]
  min_dte := 30
  max_dte := 90
  leaps_min_dte := 365
  leaps_max_dte := 730
  min_iv_rank := 10
  max_iv_rank := 70
  min_volume := 100
  min_open_interest := 500
  max_bid_ask_spread_pct := 0.50
  min_fundamental_score := 40
  min_sentiment_score := 35
  min_probability_of_profit := 0.45
  min_ml_quality_score := 45
  max_results := 50
  target_spread_widths := []
  max_spread_width := none
  max_debit_pct_of_spread := 1
  max_net_debit := none
  min_long_delta := 0
  max_long_delta := 1

/-! ## Leg filtering (`backend/scanner/options_filter.py`) -/

/-- Model of `OptionsFilter.filter_legs` (lines 18-52), parameterised by `today`. -/
def filter_legs (today : ℤ) (quotes : List OptionQuote)
    (filters : ScannerFilters) (strategy : SpreadType) : List OptionQuote :=
  let is_leaps := strategy = SpreadType.leap_call ∨ strategy = SpreadType.leap_put
  let min_dte := if is_leaps then filters.leaps_min_dte else filters.min_dte
  let max_dte := if is_leaps then filters.leaps_max_dte else filters.max_dte
  quotes.filter fun quote =>
    let dte := quote.expiration - today
    decide (¬(dte < min_dte ∨ max_dte < dte)
      ∧ ¬(quote.volume < filters.min_volume)
      ∧ ¬(quote.open_interest < filters.min_open_interest)
      ∧ ¬(quote.bid ≤ 0 ∨ quote.ask ≤ 0)
      ∧ ¬(0 < (quote.bid + quote.ask) / 2
          ∧ filters.max_bid_ask_spread_pct
            < (quote.ask - quote.bid) / ((quote.bid + quote.ask) / 2)))

/-- Model of `OptionsFilter.filter_for_strategy` (lines 54-66). -/
def filter_for_strategy (today : ℤ) (calls puts : List OptionQuote)
    (filters : ScannerFilters) (strategy : SpreadType) : List OptionQuote :=
  if strategy = SpreadType.bull_call ∨ strategy = SpreadType.leap_call then
    filter_legs today calls filters strategy
  else if strategy = SpreadType.bear_put ∨ strategy = SpreadType.leap_put then
    filter_legs today puts filters strategy
  else []

/-! ## Fundamentals (`backend/models/fundamentals.py`,
`backend/scanner/fundamentals_scorer.py`)

Only the fields the core reads are modelled; the remaining provider fields
(`forward_pe`, `peg_ratio`, ...) are never consumed by the scanner. -/

/-- Model of `FundamentalData` (scored subset). -/
structure FundamentalData where
  symbol : String
  pe_ratio : Option ℚ
  revenue_growth_yoy : Option ℚ
  earnings_growth_yoy : Option ℚ
  debt_to_equity : Option ℚ
  gross_margin : Option ℚ
  operating_margin : Option ℚ
  return_on_equity : Option ℚ
  free_cash_flow_yield : Option ℚ
  fundamental_score : Option ℚ
deriving DecidableEq, Repr

/-- Model of `FundamentalData(symbol=...)` — every metric at its `None` default. -/
def FundamentalData.default (symbol : String) : FundamentalData where
  symbol := symbol
  pe_ratio := none
  revenue_growth_yoy := none
  earnings_growth_yoy := none
  debt_to_equity := none
  gross_margin := none
  operating_margin := none
  return_on_equity := none
  free_cash_flow_yield := none
  fundamental_score := none

/-- Model of `FundamentalsScorer._pe_score`. -/
def pe_score (pe : Option ℚ) : ℚ :=
  match pe with
  | none => 50
  | some pe =>
    if pe ≤ 0 then 5
    else if pe ≤ 15 then 100
    else if pe ≤ 25 then 100 - (pe - 15) * 2
    else if pe ≤ 40 then 80 - (pe - 25) * 1.67
    else max 0 (55 - (pe - 40) * 1.75)

/-- Inner `single_score` of `FundamentalsScorer._growth_score`. -/
def growth_single_score (g : Option ℚ) : ℚ :=
  match g with
  | none => 50
  | some g =>
    if 0.30 ≤ g then 100
    else if 0.15 ≤ g then 75 + (g - 0.15) / 0.15 * 25
    else if 0.05 ≤ g then 50 + (g - 0.05) / 0.10 * 25
    else if 0 ≤ g then 30 + g / 0.05 * 20
    else max 0 (30 + g * 150)

/-- Model of `FundamentalsScorer._growth_score`. -/
def growth_score (rev_growth earn_growth : Option ℚ) : ℚ :=
  roundTo 2 (growth_single_score rev_growth * 0.4 + growth_single_score earn_growth * 0.6)

/-- Model of `FundamentalsScorer._debt_score`. -/
def debt_score (de_ratio : Option ℚ) : ℚ :=
  match de_ratio with
  | none => 50
  | some de =>
    if de < 0 then 100
    else if de ≤ 0.5 then 90
    else if de ≤ 1 then 90 - (de - 0.5) * 40
    else if de ≤ 2 then 70 - (de - 1) * 20
    else if de ≤ 3 then 50 - (de - 2) * 25
    else max 0 (25 - (de - 3) * 5)

/-- Inner `gross_score` of `FundamentalsScorer._margin_score`. -/
def margin_gross_score (g : Option ℚ) : ℚ :=
  match g with
  | none => 50
  | some g =>
    if 0.60 ≤ g then 100
    else if 0.40 ≤ g then 70 + (g - 0.40) / 0.20 * 30
    else if 0.20 ≤ g then 40 + (g - 0.20) / 0.20 * 30
    else max 0 (g / 0.20 * 40)

/-- Inner `op_score` of `FundamentalsScorer._margin_score`. -/
def margin_op_score (op : Option ℚ) : ℚ :=
  match op with
  | none => 50
  | some op =>
    if 0.25 ≤ op then 100
    else if 0.10 ≤ op then 60 + (op - 0.10) / 0.15 * 40
    else if 0 ≤ op then op / 0.10 * 60
    else max 0 (30 + op * 100)

/-- Model of `FundamentalsScorer._margin_score`. -/
def margin_score (gross operating : Option ℚ) : ℚ :=
  roundTo 2 (margin_gross_score gross * 0.5 + margin_op_score operating * 0.5)

/-- Model of `FundamentalsScorer._roe_score`. -/
def roe_score (roe : Option ℚ) : ℚ :=
  match roe with
  | none => 50
  | some roe =>
    if 0.40 ≤ roe then 100
    else if 0.20 ≤ roe then 70 + (roe - 0.20) / 0.20 * 30
    else if 0.10 ≤ roe then 40 + (roe - 0.10) / 0.10 * 30
    else if 0 ≤ roe then roe / 0.10 * 40
    else max 0 (20 + roe * 100)

/-- Model of `FundamentalsScorer._fcf_score`. -/
def fcf_score (fcf_yield : Option ℚ) : ℚ :=
  match fcf_yield with
  | none => 50
  | some fcf =>
    if 0.08 ≤ fcf then 100
    else if 0.04 ≤ fcf then 60 + (fcf - 0.04) / 0.04 * 40
    else if 0 ≤ fcf then fcf / 0.04 * 60
    else max 0 (20 + fcf * 200)

/-- Model of `FundamentalsScorer.score` (lines 34-47): weighted composite
{pe 0.15, growth 0.25, debt 0.20, margin 0.20, roe 0.10, fcf 0.10},
rounded to 2 decimals and written back onto the record. -/
def FundamentalsScorer.score (fund : FundamentalData) : FundamentalData :=
  let composite :=
    pe_score fund.pe_ratio * 0.15
    + growth_score fund.revenue_growth_yoy fund.earnings_growth_yoy * 0.25
    + debt_score fund.debt_to_equity * 0.20
    + margin_score fund.gross_margin fund.operating_margin * 0.20
    + roe_score fund.return_on_equity * 0.10
    + fcf_score fund.free_cash_flow_yield * 0.10
  { fund with fundamental_score := some (roundTo 2 composite) }

/-! ## Sentiment (`backend/models/sentiment.py`,
`backend/sentiment/aggregator.py`) -/

/-- Model of `NewsArticle` from `backend/models/sentiment.py` (the fields the core
reads). -/
structure NewsArticle where
  title : String
  description : Option String
  url : String
  published_at : String
  source : String
deriving DecidableEq, Repr

/-- Model of `SentimentResult` from `backend/models/sentiment.py`. -/
structure SentimentResult where
  text : String
  positive : ℚ
  negative : ℚ
  neutral : ℚ
  compound_score : ℚ
  label : String
deriving DecidableEq, Repr

/-- Model of `ArticleSentiment` from `backend/models/sentiment.py`. -/
structure ArticleSentiment where
  headline : String
  url : String
  published_at : String
  source : String
  positive : ℚ
  negative : ℚ
  neutral : ℚ
  label : String
deriving DecidableEq, Repr

/-- Model of `TickerSentiment` from `backend/models/sentiment.py`. -/
structure TickerSentiment where
  symbol : String
  articles_analyzed : ℕ
  avg_positive : ℚ
  avg_negative : ℚ
  avg_neutral : ℚ
  avg_compound : ℚ
  sentiment_label : String
  sentiment_score : ℚ
  top_headlines : List String
  analyzed_at : String
  article_sentiments : List ArticleSentiment
deriving DecidableEq, Repr

/-- Model of `aggregator._neutral_ticker_sentiment` (lines 103-115); `now` models the
`datetime.utcnow().isoformat()` clock read. -/
def neutral_ticker_sentiment (now symbol : String) (headlines : List String) :
    TickerSentiment where
  symbol := symbol
  articles_analyzed := 0
  avg_positive := 0.33
  avg_negative := 0.33
  avg_neutral := 0.34
  avg_compound := 0
  sentiment_label := "neutral"
  sentiment_score := 50
  top_headlines := headlines.take 5
  analyzed_at := now
  article_sentiments := []

/-- Python's `max(scores, key=...)` over the dict
`{"positive": p, "negative": n, "neutral": u}`: the first key in insertion
order whose value is maximal (a later key only wins strictly). -/
def dominant_label (p n u : ℚ) : String :=
  let best1 : String × ℚ := if p < n then ("negative", n) else ("positive", p)
  if best1.2 < u then "neutral" else best1.1

/-- Per-article breakdown loop of `SentimentAggregator.aggregate`
(lines 44-56): `articles[i]` when present, else the first 100 characters of
the classified text. -/
def build_article_sentiments (articles : List NewsArticle) :
    ℕ → List SentimentResult → List ArticleSentiment
  | _, [] => []
  | i, result :: rest =>
    (match articles[i]? with
     | some art =>
        { headline := art.title
          url := art.url
          published_at := art.published_at
          source := art.source
          positive := roundTo 4 result.positive
          negative := roundTo 4 result.negative
          neutral := roundTo 4 result.neutral
          label := result.label }
     | none =>
        { headline := result.text.take 100
          url := ""
          published_at := ""
          source := ""
          positive := roundTo 4 result.positive
          negative := roundTo 4 result.negative
          neutral := roundTo 4 result.neutral
          label := result.label })
    :: build_article_sentiments articles (i + 1) rest

/-- Model of `SentimentAggregator.aggregate` (lines 20-70). -/
def aggregate (now symbol : String) (results : List SentimentResult)
    (articles : Option (List NewsArticle)) (headlines : Option (List String)) :
    TickerSentiment :=
  if results.isEmpty then neutral_ticker_sentiment now symbol (headlines.getD [])
  else
    let n : ℚ := results.length
    let avg_pos := (results.map SentimentResult.positive).sum / n
    let avg_neg := (results.map SentimentResult.negative).sum / n
    let avg_neu := (results.map SentimentResult.neutral).sum / n
    let avg_compound := avg_pos - avg_neg
    { symbol := symbol
      articles_analyzed := results.length
      avg_positive := roundTo 4 avg_pos
      avg_negative := roundTo 4 avg_neg
      avg_neutral := roundTo 4 avg_neu
      avg_compound := roundTo 4 avg_compound
      sentiment_label := dominant_label avg_pos avg_neg avg_neu
      sentiment_score := roundTo 2 ((avg_compound + 1) / 2 * 100)
      top_headlines := (headlines.getD []).take 5
      analyzed_at := now
      article_sentiments := build_article_sentiments (articles.getD []) 0 results }

/-! ## ML prediction and risk scoring (`backend/models/ml.py`,
`backend/models/scanner.py`, `backend/scanner/risk_scorer.py`) -/

/-- Model of `MLPrediction` from `backend/models/ml.py`. -/
structure MLPrediction where
  spread_quality_score : ℚ
  expected_return_pct : ℚ
  probability_of_profit : ℚ
  confidence : ℚ
  feature_importances : List (String × ℚ)
  is_placeholder : Bool
deriving DecidableEq, Repr

/-- Model of `RiskScore` from `backend/models/scanner.py`; `breakdown` is the raw
component dict in insertion order. -/
structure RiskScore where
  composite_score : ℚ
  iv_rank_component : ℚ
  bid_ask_component : ℚ
  fundamental_component : ℚ
  sentiment_component : ℚ
  liquidity_component : ℚ
  breakdown : List (String × ℚ)
deriving DecidableEq, Repr

/-- Model of `RiskScorer._iv_rank_score`. -/
def iv_rank_score (iv_rank : ℚ) : ℚ := max 0 (100 - iv_rank)

/-- Model of `RiskScorer._bid_ask_score`. -/
def bid_ask_score (ba_quality : ℚ) : ℚ := max 0 (min 100 (ba_quality * 100))

/-- Model of `RiskScorer._liquidity_score`. -/
def liquidity_score (long_leg : OptionQuote) : ℚ :=
  roundTo 2 (min 50 ((long_leg.open_interest : ℚ) / 1000 * 50)
    + min 50 ((long_leg.volume : ℚ) / 500 * 50))

/-- The fundamental component of `RiskScorer.score`:
`fundamentals.fundamental_score or 50.0` — Python's `or` replaces both
`None` and `0.0` by the neutral default. -/
def fundamental_component (fundamental_score : Option ℚ) : ℚ :=
  match fundamental_score with
  | none => 50
  | some x => if x = 0 then 50 else x

/-- Model of `RiskScorer.score` (lines 35-59), weights
{iv_rank 0.25, bid_ask 0.20, fundamental 0.25, sentiment 0.15,
liquidity 0.15}. -/
def RiskScorer.score (spread : SpreadCandidate) (fundamentals : FundamentalData)
    (sentiment : TickerSentiment) : RiskScore :=
  let c_iv := iv_rank_score spread.iv_rank
  let c_ba := bid_ask_score spread.bid_ask_quality_score
  let c_fund := fundamental_component fundamentals.fundamental_score
  let c_sent := sentiment.sentiment_score
  let c_liq := liquidity_score spread.long_leg
  let composite := c_iv * 0.25 + c_ba * 0.20 + c_fund * 0.25
    + c_sent * 0.15 + c_liq * 0.15
  { composite_score := roundTo 2 composite
    iv_rank_component := roundTo 2 c_iv
    bid_ask_component := roundTo 2 c_ba
    fundamental_component := roundTo 2 c_fund
    sentiment_component := roundTo 2 c_sent
    liquidity_component := roundTo 2 c_liq
    breakdown := [("iv_rank", c_iv), ("bid_ask", c_ba), ("fundamental", c_fund),
      ("sentiment", c_sent), ("liquidity", c_liq)] }

/-! ## Universe (`backend/scanner/universe.py`) -/

/-- Model of `DEFAULT_UNIVERSE` from `backend/scanner/universe.py`. -/
def DEFAULT_UNIVERSE : List String :=
  ["AAPL", "MSFT", "NVDA", "GOOGL", "META", "AMZN", "TSLA", "AMD",
   "JPM", "BAC", "GS", "MS", "V", "MA",
   "UNH", "JNJ", "ABBV", "LLY", "PFE",
   "XOM", "CVX", "OXY",
   "COST", "WMT", "HD", "NKE", "SBUX",
   "CAT", "DE", "LMT", "RTX",
   "SPY", "QQQ", "IWM", "XLF", "XLE", "XLV",
   "INTC", "QCOM", "MU", "AVGO",
   "DIS", "NFLX", "CRM", "BABA", "BA"]

/-- Model of `UniverseBuilder.build`: an explicit symbol list (uppercased, stripped,
blanks dropped) or the default universe.  Python's `if filters.symbols:`
is falsy for both `None` and `[]`. -/
def UniverseBuilder.build (filters : ScannerFilters) : List String :=
  match filters.symbols with
  | some syms =>
      if syms.isEmpty then DEFAULT_UNIVERSE
      else (syms.filter (fun s => s.trim ≠ "")).map (fun s => s.toUpper.trim)
  | none => DEFAULT_UNIVERSE

/-! ## Orchestrator (`backend/scanner/scanner.py`)

All provider calls (`yfinance`, FMP, news, FinBERT, the ML ranker and the
cache) are modelled as one record of pure functions; "identical provider
responses" in the spec means the same `Providers` value.  Cache writes only
matter across scans and are dropped; the per-task exception isolation of
`asyncio.gather` never fires for pure functions. -/

/-- The external collaborators consumed by `OptionsScanner`. -/
structure Providers where
  /-- Model of `YFinanceClient.get_quote(symbol)["price"]`. -/
  get_quote : String → ℚ
  /-- Model of `YFinanceClient.get_expirations` (dates already parsed to days). -/
  get_expirations : String → List ℤ
  /-- Model of `YFinanceClient.get_options_chain(symbol, expiry, spot)`. -/
  get_options_chain : String → ℤ → ℚ → List OptionQuote × List OptionQuote
  /-- Model of `YFinanceClient.compute_iv_rank(symbol, current_iv)`. -/
  compute_iv_rank : String → Option ℚ → ℚ
  /-- Model of `FMPClient.get_full_fundamentals`. -/
  get_full_fundamentals : String → FundamentalData
  /-- Model of `NewsAggregator.get_news`. -/
  get_news : String → List NewsArticle
  /-- Model of `SentimentScorer.score_texts_async` (the FinBERT batch). -/
  score_texts : List String → List SentimentResult
  /-- Model of `SpreadRanker.predict_batch` (fixed model state). -/
  predict_batch : List SpreadCandidate → List MLPrediction
  /-- Cache reads, one per key family (`fundamentals:`, `sentiment_v2:`,
  `iv_rank:`). -/
  cache_fundamentals : String → Option FundamentalData
  cache_sentiment : String → Option TickerSentiment
  cache_iv_rank : String → Option ℚ

/-- Model of `RankedSpread` from `backend/models/scanner.py`. -/
structure RankedSpread where
  rank : ℕ
  spread : SpreadCandidate
  fundamentals : FundamentalData
  sentiment : TickerSentiment
  ml_prediction : MLPrediction
  risk_score : RiskScore

/-- Model of `ScannerResult` from `backend/models/scanner.py`. -/
structure ScannerResult where
  scan_id : String
  scan_time : String
  filters_used : ScannerFilters
  total_candidates_evaluated : ℕ
  results : List RankedSpread
  scan_duration_seconds : ℚ

/-- Pipeline stages of `OptionsScanner.scan`; `scan` returns the list of
stages it actually invoked so that short-circuiting is observable. -/
inductive Stage where
  | universe
  | fetch_construct
  | fundamentals
  | sentiment
  | iv_rank
  | ml_inference
  | risk_scoring
  | ranking
deriving DecidableEq, Repr

/-- Model of `scanner._apply_spread_filters` (lines 368-394): width/cost constraints;
single-leg LEAPS are exempt. -/
noncomputable def apply_spread_filters (spreads : List SpreadCandidate)
    (filters : ScannerFilters) : List SpreadCandidate :=
  spreads.filter fun s =>
    match s.short_leg with
    | none => true
    | some _ =>
      let w := s.spread_width
      decide ((filters.target_spread_widths = []
            ∨ ∃ tw ∈ filters.target_spread_widths, |w - tw| < 0.01)
        ∧ (∀ mw ∈ filters.max_spread_width.toList, w ≤ mw)
        ∧ ¬(0 < w ∧ filters.max_debit_pct_of_spread < s.net_debit / w)
        ∧ (∀ mnd ∈ filters.max_net_debit.toList, s.net_debit ≤ mnd))

/-- Model of `scanner._neutral_sentiment` (lines 397-410). -/
def neutral_sentiment (now symbol : String) : TickerSentiment where
  symbol := symbol
  articles_analyzed := 0
  avg_positive := 0.33
  avg_negative := 0.33
  avg_neutral := 0.34
  avg_compound := 0
  sentiment_label := "neutral"
  sentiment_score := 50
  top_headlines := []
  analyzed_at := now
  article_sentiments := []

/-- Model of `process_symbol` inside `OptionsScanner._fetch_and_construct`
(lines 180-243): quote, expiration pre-filter (`A or B` where the code
writes `if A ... elif B`), at most 8 chains, spread construction, bid-ask
quality filter, width/cost filters. -/
noncomputable def process_symbol (today : ℤ) (P : Providers)
    (filters : ScannerFilters) (symbol : String) : List SpreadCandidate :=
  let spot := P.get_quote symbol
  if spot ≤ 0 then []
  else
    let expirations := P.get_expirations symbol
    if expirations.isEmpty then []
    else
      let has_spread_strategies :=
        SpreadType.bull_call ∈ filters.strategies
          ∨ SpreadType.bear_put ∈ filters.strategies
      let has_leaps_strategies :=
        SpreadType.leap_call ∈ filters.strategies
          ∨ SpreadType.leap_put ∈ filters.strategies
          ∨ SpreadType.leaps_spread_call ∈ filters.strategies
      let valid_expiries := expirations.filter fun exp =>
        let dte := exp - today
        decide ((has_spread_strategies ∧ filters.min_dte ≤ dte ∧ dte ≤ filters.max_dte)
          ∨ (has_leaps_strategies ∧ filters.leaps_min_dte ≤ dte
              ∧ dte ≤ filters.leaps_max_dte))
      (valid_expiries.take 8).flatMap fun expiry =>
        let chain := P.get_options_chain symbol expiry spot
        let spreads := build_all_spreads today chain.1 chain.2 filters.strategies spot
        let ba_filtered := spreads.filter fun s =>
          decide (1 - filters.max_bid_ask_spread_pct ≤ s.bid_ask_quality_score)
        apply_spread_filters ba_filtered filters

/-- Model of `OptionsScanner._fetch_and_construct` (lines 175-255): per-symbol
results concatenated in symbol order (`asyncio.gather` preserves order). -/
noncomputable def fetch_and_construct (today : ℤ) (P : Providers)
    (symbols : List String) (filters : ScannerFilters) : List SpreadCandidate :=
  symbols.flatMap (process_symbol today P filters)

/-- Per-symbol body of `OptionsScanner._fetch_fundamentals` (lines 263-272):
cache hit, else fetch-and-score. -/
def fetch_fundamentals_one (P : Providers) (symbol : String) : FundamentalData :=
  match P.cache_fundamentals symbol with
  | some cached => cached
  | none => FundamentalsScorer.score (P.get_full_fundamentals symbol)

/-- Per-symbol body of `OptionsScanner._fetch_sentiment` (lines 292-320). -/
def fetch_sentiment_one (P : Providers) (now : String) (symbol : String) :
    TickerSentiment :=
  match P.cache_sentiment symbol with
  | some cached => cached
  | none =>
    let articles := P.get_news symbol
    let texts := (articles.filter (fun a => a.title ≠ "")).map
      (fun a => (a.title ++ " " ++ a.description.getD "").trim)
    if texts.isEmpty then neutral_sentiment now symbol
    else
      let scored := P.score_texts texts
      let scored_articles := articles.filter (fun a => a.title ≠ "")
      aggregate now symbol scored (some scored_articles)
        (some ((articles.take 5).map NewsArticle.title))

/-- Per-symbol body of `OptionsScanner._fetch_iv_ranks` (lines 345-354):
cache hit, else IV rank from the mean long-leg IV of the symbol's
candidates. -/
noncomputable def fetch_iv_rank_one (P : Providers)
    (candidates : List SpreadCandidate) (symbol : String) : ℚ :=
  match P.cache_iv_rank symbol with
  | some cached => cached
  | none =>
    let ivs := (candidates.filter (fun c => c.underlying = symbol)).map
      (fun c => c.long_leg.implied_volatility)
    let current_iv := if ivs.isEmpty then none else some (ivs.sum / ivs.length)
    P.compute_iv_rank symbol current_iv

/-- Model of `for i, item in enumerate(ranked): item.rank = i + 1` (lines 155-156). -/
def assign_ranks : ℕ → List RankedSpread → List RankedSpread
  | _, [] => []
  | i, r :: rest => { r with rank := i } :: assign_ranks (i + 1) rest

/-- Stage-8 filter loop of `OptionsScanner.scan` (lines 126-151):
post-ML quality / PoP / fundamentals / sentiment thresholds. -/
noncomputable def stage8_filter (filters : ScannerFilters)
    (fund_of : String → FundamentalData) (sent_of : String → TickerSentiment) :
    List ((SpreadCandidate × MLPrediction) × RiskScore) → List RankedSpread
  | [] => []
  | ((cand, ml_pred), risk) :: rest =>
    let tail := stage8_filter filters fund_of sent_of rest
    if ml_pred.spread_quality_score < filters.min_ml_quality_score then tail
    else if cand.probability_of_profit < (filters.min_probability_of_profit : ℝ)
      then tail
    else
      let fund := fund_of cand.underlying
      let sent := sent_of cand.underlying
      if (fund.fundamental_score.getD 0) < filters.min_fundamental_score then tail
      else if sent.sentiment_score < filters.min_sentiment_score then tail
      else
        { rank := 0
          spread := cand
          fundamentals := fund
          sentiment := sent
          ml_prediction := ml_pred
          risk_score := risk } :: tail

/-- The sort key of stage 8:
`ranked.sort(key=lambda x: x.ml_prediction.spread_quality_score,
reverse=True)` — descending ML quality. -/
def ml_rel (a b : RankedSpread) : Prop :=
  b.ml_prediction.spread_quality_score ≤ a.ml_prediction.spread_quality_score

instance : DecidableRel ml_rel := fun _ _ =>
  inferInstanceAs (Decidable (_ ≤ _))

/-- Model of `OptionsScanner.scan` (lines 77-173).  Returns the `ScannerResult`
together with the list of stages that actually ran (the zero-candidate
early return skips stages 4-8).  `scan_id`, `now` and `elapsed` model the
`uuid4()` and clock reads. -/
noncomputable def scan (P : Providers) (filters : ScannerFilters)
    (scan_id now : String) (elapsed : ℚ) (today : ℤ) :
    ScannerResult × List Stage :=
  let symbols := UniverseBuilder.build filters
  let all_candidates := fetch_and_construct today P symbols filters
  if all_candidates.isEmpty then
    ({ scan_id := scan_id
       scan_time := now
       filters_used := filters
       total_candidates_evaluated := 0
       results := []
       scan_duration_seconds := elapsed },
     [Stage.universe, Stage.fetch_construct])
  else
    let fund_of := fetch_fundamentals_one P
    let sent_of := fetch_sentiment_one P now
    let candidates := all_candidates.map fun c =>
      { c with iv_rank := fetch_iv_rank_one P all_candidates c.underlying }
    let ml_predictions := P.predict_batch candidates
    let risk_scores := candidates.map fun c =>
      RiskScorer.score c (fund_of c.underlying) (sent_of c.underlying)
    let ranked := stage8_filter filters fund_of sent_of
      ((candidates.zip ml_predictions).zip risk_scores)
    let sorted := ranked.insertionSort ml_rel
    ({ scan_id := scan_id
       scan_time := now
       filters_used := filters
       total_candidates_evaluated := all_candidates.length
       results := (assign_ranks 1 sorted).take filters.max_results
       scan_duration_seconds := elapsed },
     [Stage.universe, Stage.fetch_construct, Stage.fundamentals, Stage.sentiment,
      Stage.iv_rank, Stage.ml_inference, Stage.risk_scoring, Stage.ranking])

/-! Concrete chains for the constructor witnesses and counterexamples. -/

/-- A long call leg: strike 100, ask 7.00, expiring in 40 days. -/
def wit_call_long : OptionQuote where
  symbol := "A"
  underlying := "A"
  expiration := 40
  strike := 100
  option_type := OptionType.call
  bid := 6.9
  ask := 7
  mid := 6.95
  last := 0
  volume := 0
  open_interest := 0
  implied_volatility := 0.3
  delta := 0.5
  gamma := 0
  theta := 0
  vega := 0
  rho := 0

/-- A short call leg: strike 110, bid 2.00, same expiry. -/
def wit_call_short : OptionQuote :=
  { wit_call_long with strike := 110, bid := 2, ask := 2.02, mid := 2.01 }

/-- A short call leg at the off-cent strike 110.004. -/
def frac_call_short : OptionQuote :=
  { wit_call_long with strike := 110.004, bid := 2, ask := 2.02, mid := 2.01 }

/-- The bull-call candidate built from `wit_call_long`/`wit_call_short`. -/
noncomputable def wit_bull_candidate : SpreadCandidate where
  underlying := "A"
  spread_type := SpreadType.bull_call
  expiration := 40
  dte := 40
  long_leg := wit_call_long
  short_leg := some wit_call_short
  net_debit := 5
  max_profit := 5
  max_loss := 5
  breakeven := 105
  probability_of_profit :=
    compute_probability_of_profit ((105 : ℚ) : ℝ) ((100 : ℚ) : ℝ) ((0.3 : ℚ) : ℝ) 40
  bid_ask_quality_score := bid_ask_quality wit_call_long wit_call_short
  iv_rank := 0
  spread_width := 10

/-- The bull-call candidate built from `wit_call_long`/`frac_call_short`:
its `spread_width` is `round(10.004, 2) = 10`. -/
noncomputable def frac_bull_candidate : SpreadCandidate where
  underlying := "A"
  spread_type := SpreadType.bull_call
  expiration := 40
  dte := 40
  long_leg := wit_call_long
  short_leg := some frac_call_short
  net_debit := 5
  max_profit := 5
  max_loss := 5
  breakeven := 105
  probability_of_profit :=
    compute_probability_of_profit ((105 : ℚ) : ℝ) ((100 : ℚ) : ℝ) ((0.3 : ℚ) : ℝ) 40
  bid_ask_quality_score := bid_ask_quality wit_call_long frac_call_short
  iv_rank := 0
  spread_width := 10

/-- A deep-ITM LEAPS call: strike 50, ask 5, delta 0.9, 400 DTE. -/
def wit_leap_call : OptionQuote where
  symbol := "P"
  underlying := "P"
  expiration := 400
  strike := 50
  option_type := OptionType.call
  bid := 4.9
  ask := 5
  mid := 4.95
  last := 0
  volume := 10
  open_interest := 10
  implied_volatility := 0.3
  delta := 0.9
  gamma := 0
  theta := 0
  vega := 0
  rho := 0

/-- A deep-ITM LEAPS put: strike 50, ask 5, delta -0.9, 400 DTE. -/
def wit_leap_put : OptionQuote :=
  { wit_leap_call with option_type := OptionType.put, delta := -0.9 }

/-- The candidate `build_leaps` produces from `wit_leap_call`. -/
noncomputable def wit_leap_call_candidate : SpreadCandidate where
  underlying := "P"
  spread_type := SpreadType.leap_call
  expiration := 400
  dte := 400
  long_leg := wit_leap_call
  short_leg := none
  net_debit := 5
  max_profit := 9999.0
  max_loss := 5
  breakeven := 55
  probability_of_profit := 0.5
  bid_ask_quality_score := bid_ask_quality_single wit_leap_call
  iv_rank := 0
  spread_width := 0

/-- The candidate `build_leaps` produces from `wit_leap_put`. -/
noncomputable def wit_leap_put_candidate : SpreadCandidate where
  underlying := "P"
  spread_type := SpreadType.leap_put
  expiration := 400
  dte := 400
  long_leg := wit_leap_put
  short_leg := none
  net_debit := 5
  max_profit := 9999.0
  max_loss := 5
  breakeven := 45
  probability_of_profit := 0.5
  bid_ask_quality_score := bid_ask_quality_single wit_leap_put
  iv_rank := 0
  spread_width := 0

/-- A single classified article with positive mass `1/3`. -/
def sent_third : SentimentResult where
  text := "t"
  positive := 1/3
  negative := 0
  neutral := 2/3
  compound_score := 1/3
  label := "neutral"

/-- The chain-free provider record used by the C8 witness: a positive quote
but no expirations, so no symbol yields any candidate. -/
def empty_providers : Providers where
  get_quote := fun _ => 100
  get_expirations := fun _ => []
  get_options_chain := fun _ _ _ => ([], [])
  compute_iv_rank := fun _ _ => 50
  get_full_fundamentals := fun s => FundamentalData.default s
  get_news := fun _ => []
  score_texts := fun _ => []
  predict_batch := fun _ => []
  cache_fundamentals := fun _ => none
  cache_sentiment := fun _ => none
  cache_iv_rank := fun _ => none

/-! ## C2 — the LegFilter is never invoked by the pipeline -/

/-- A perfectly illiquid call: volume 0, open interest 0 (strike 95). -/
def thin_call_long : OptionQuote where
  symbol := "A"
  underlying := "A"
  expiration := 40
  strike := 95
  option_type := OptionType.call
  bid := 6.9
  ask := 7
  mid := 6.95
  last := 0
  volume := 0
  open_interest := 0
  implied_volatility := 0.3
  delta := 0.5
  gamma := 0
  theta := 0
  vega := 0
  rho := 0

/-- The matching illiquid short leg (strike 105). -/
def thin_call_short : OptionQuote :=
  { thin_call_long with strike := 105, bid := 2, ask := 2.02, mid := 2.01 }

/-- Providers serving exactly the two illiquid quotes above. -/
def thin_chain_providers : Providers :=
  { empty_providers with
      get_expirations := fun _ => [40]
      get_options_chain := fun _ _ _ => ([thin_call_long, thin_call_short], []) }

/-- Filters requiring volume ≥ 100 and open interest ≥ 500 (the pydantic
defaults), scanning only bull calls. -/
def c2_filters : ScannerFilters :=
  { default_filters with symbols := some ["A"], strategies := [SpreadType.bull_call] }

/-- The candidate the pipeline constructs from the illiquid chain. -/
noncomputable def thin_candidate : SpreadCandidate where
  underlying := "A"
  spread_type := SpreadType.bull_call
  expiration := 40
  dte := 40
  long_leg := thin_call_long
  short_leg := some thin_call_short
  net_debit := 5
  max_profit := 5
  max_loss := 5
  breakeven := 100
  probability_of_profit :=
    compute_probability_of_profit ((100 : ℚ) : ℝ) ((100 : ℚ) : ℝ) ((0.3 : ℚ) : ℝ) 40
  bid_ask_quality_score := bid_ask_quality thin_call_long thin_call_short
  iv_rank := 0
  spread_width := 10

/-! ## C9 — determinism of `scan` given fixed providers -/

/-- Erase the one clock-derived field of a sentiment record. -/
def strip_sentiment_time (t : TickerSentiment) : TickerSentiment :=
  { t with analyzed_at := "" }

/-- Erase the clock-derived data inside a ranked result. -/
def strip_times (r : RankedSpread) : RankedSpread :=
  { r with sentiment := strip_sentiment_time r.sentiment }

section RoundLemmas

variable {α : Type} [LinearOrderedField α] [FloorRing α] (x : α)

theorem floor_le_roundHalfEven : ⌊x⌋ ≤ roundHalfEven x := by
  unfold roundHalfEven
  split_ifs <;> omega

theorem roundHalfEven_le_ceil : roundHalfEven x ≤ ⌈x⌉ := by
  have hfc : ⌊x⌋ ≤ ⌈x⌉ := Int.floor_le_ceil x
  have hlt : ∀ _ : (⌊x⌋ : α) < x, ⌊x⌋ + 1 ≤ ⌈x⌉ := fun h => by
    have := Int.lt_ceil.mpr h
    omega
  unfold roundHalfEven
  split_ifs with h1 h2 h3
  · exact hfc
  · exact hlt (by linarith [Int.floor_le x])
  · exact hfc
  · have h2' : x - (⌊x⌋ : α) = 1 / 2 := le_antisymm (not_lt.mp h2) (not_lt.mp h1)
    exact hlt (by linarith)

theorem roundHalfEven_ge_sub_half : x - 1 / 2 ≤ (roundHalfEven x : α) := by
  have hfl : (⌊x⌋ : α) ≤ x := Int.floor_le x
  have hfu : x < (⌊x⌋ : α) + 1 := Int.lt_floor_add_one x
  unfold roundHalfEven
  split_ifs with h1 h2 h3 <;> push_cast <;> linarith

theorem roundHalfEven_le_add_half : (roundHalfEven x : α) ≤ x + 1 / 2 := by
  have hfl : (⌊x⌋ : α) ≤ x := Int.floor_le x
  unfold roundHalfEven
  split_ifs with h1 h2 h3 <;> push_cast <;> linarith

theorem roundHalfEven_intCast (k : ℤ) : roundHalfEven (k : α) = k := by
  unfold roundHalfEven
  rw [Int.floor_intCast]
  simp

variable {x}

/-- Values at most an exact `n`-decimal grid point round to at most it. -/
theorem roundTo_le_grid {n : ℕ} {k : ℤ} (h : x ≤ (k : α) / 10 ^ n) :
    roundTo n x ≤ (k : α) / 10 ^ n := by
  have hpow : (0 : α) < 10 ^ n := by positivity
  have hx : x * 10 ^ n ≤ (k : α) := (le_div_iff₀ hpow).mp h
  have h2 : roundHalfEven (x * 10 ^ n) ≤ k :=
    le_trans (roundHalfEven_le_ceil _) (Int.ceil_le.mpr hx)
  have h3 : ((roundHalfEven (x * 10 ^ n) : ℤ) : α) ≤ (k : α) := by exact_mod_cast h2
  unfold roundTo
  gcongr

/-- Values at least an exact `n`-decimal grid point round to at least it. -/
theorem roundTo_ge_grid {n : ℕ} {k : ℤ} (h : (k : α) / 10 ^ n ≤ x) :
    (k : α) / 10 ^ n ≤ roundTo n x := by
  have hpow : (0 : α) < 10 ^ n := by positivity
  have hx : (k : α) ≤ x * 10 ^ n := (div_le_iff₀ hpow).mp h
  have h2 : k ≤ roundHalfEven (x * 10 ^ n) :=
    le_trans (Int.le_floor.mpr hx) (floor_le_roundHalfEven _)
  have h3 : ((k : ℤ) : α) ≤ ((roundHalfEven (x * 10 ^ n) : ℤ) : α) := by exact_mod_cast h2
  unfold roundTo
  gcongr

theorem roundTo_nonneg {n : ℕ} (h : 0 ≤ x) : 0 ≤ roundTo n x := by
  have := roundTo_ge_grid (α := α) (n := n) (k := 0) (by simpa using h)
  simpa using this

theorem roundTo_nonpos {n : ℕ} (h : x ≤ 0) : roundTo n x ≤ 0 := by
  have := roundTo_le_grid (α := α) (n := n) (k := 0) (by simpa using h)
  simpa using this

theorem pos_of_roundTo_pos {n : ℕ} (h : 0 < roundTo n x) : 0 < x := by
  by_contra hx
  exact absurd h (not_lt.mpr (roundTo_nonpos (not_lt.mp hx)))

theorem roundTo_intCast (n : ℕ) (k : ℤ) : roundTo n ((k : α)) = k := by
  unfold roundTo
  rw [show ((k : α) * 10 ^ n) = ((k * 10 ^ n : ℤ) : α) by push_cast; ring,
    roundHalfEven_intCast]
  have hpow : (10 : α) ^ n ≠ 0 := by positivity
  push_cast
  field_simp

theorem roundTo_fifty (n : ℕ) : roundTo n (50 : α) = 50 := by
  have h := roundTo_intCast (α := α) n 50
  push_cast at h
  exact h

theorem roundTo_le_hundred {n : ℕ} (h : x ≤ 100) : roundTo n x ≤ 100 := by
  have hk : ((100 * 10 ^ n : ℤ) : α) / 10 ^ n = 100 := by
    have hpow : (10 : α) ^ n ≠ 0 := by positivity
    push_cast
    field_simp
  calc roundTo n x ≤ ((100 * 10 ^ n : ℤ) : α) / 10 ^ n :=
        roundTo_le_grid (by rw [hk]; exact h)
    _ = 100 := hk

theorem roundTo_le_one {n : ℕ} (h : x ≤ 1) : roundTo n x ≤ 1 := by
  have hk : ((10 ^ n : ℤ) : α) / 10 ^ n = 1 := by
    push_cast
    field_simp
  calc roundTo n x ≤ ((10 ^ n : ℤ) : α) / 10 ^ n := roundTo_le_grid (by rw [hk]; exact h)
    _ = 1 := hk

theorem neg_one_le_roundTo {n : ℕ} (h : -1 ≤ x) : -1 ≤ roundTo n x := by
  have hk : ((-(10 ^ n) : ℤ) : α) / 10 ^ n = -1 := by
    push_cast
    field_simp
  calc (-1 : α) = ((-(10 ^ n) : ℤ) : α) / 10 ^ n := hk.symm
    _ ≤ roundTo n x := roundTo_ge_grid (by rw [hk]; exact h)

theorem roundTo_le_add (n : ℕ) : roundTo n x ≤ x + 1 / (2 * 10 ^ n) := by
  have hpow : (0 : α) < 10 ^ n := by positivity
  have h1 : ((roundHalfEven (x * 10 ^ n) : ℤ) : α) ≤ x * 10 ^ n + 1 / 2 :=
    roundHalfEven_le_add_half _
  unfold roundTo
  rw [div_le_iff₀ hpow] at *
  calc ((roundHalfEven (x * 10 ^ n) : ℤ) : α) ≤ x * 10 ^ n + 1 / 2 := h1
    _ = (x + 1 / (2 * 10 ^ n)) * 10 ^ n := by field_simp; ring

theorem roundTo_ge_sub (n : ℕ) : x - 1 / (2 * 10 ^ n) ≤ roundTo n x := by
  have hpow : (0 : α) < 10 ^ n := by positivity
  have h1 : x * 10 ^ n - 1 / 2 ≤ ((roundHalfEven (x * 10 ^ n) : ℤ) : α) :=
    roundHalfEven_ge_sub_half _
  unfold roundTo
  rw [le_div_iff₀ hpow]
  calc (x - 1 / (2 * 10 ^ n)) * 10 ^ n = x * 10 ^ n - 1 / 2 := by field_simp; ring
    _ ≤ _ := h1

end RoundLemmas

/-! ## Standard normal distribution

`scipy.stats.norm.cdf` / `norm.pdf` from `greeks_calculator.py`. -/

theorem normPdf_nonneg (x : ℝ) : 0 ≤ normPdf x :=
  div_nonneg (Real.exp_nonneg _) (Real.sqrt_nonneg _)

theorem normPdf_eq_gauss :
    normPdf = fun x => Real.exp (-(1 / 2 : ℝ) * x ^ 2) / Real.sqrt (2 * Real.pi) := by
  funext x
  unfold normPdf
  ring_nf

theorem integrable_normPdf : MeasureTheory.Integrable normPdf := by
  rw [normPdf_eq_gauss]
  exact (integrable_exp_neg_mul_sq (by norm_num)).div_const _

theorem integral_normPdf : ∫ x, normPdf x = 1 := by
  rw [normPdf_eq_gauss]
  rw [MeasureTheory.integral_div]
  rw [integral_gaussian]
  rw [show (Real.pi / (1 / 2)) = 2 * Real.pi by ring]
  exact div_self (ne_of_gt (Real.sqrt_pos.mpr (by positivity)))

theorem normCdf_nonneg (x : ℝ) : 0 ≤ normCdf x :=
  MeasureTheory.setIntegral_nonneg measurableSet_Iic fun t _ => normPdf_nonneg t

theorem normCdf_le_one (x : ℝ) : normCdf x ≤ 1 :=
  le_trans
    (MeasureTheory.setIntegral_le_integral integrable_normPdf
      (Filter.Eventually.of_forall normPdf_nonneg))
    (le_of_eq integral_normPdf)

theorem normCdf_mono {x y : ℝ} (h : x ≤ y) : normCdf x ≤ normCdf y :=
  MeasureTheory.setIntegral_mono_set integrable_normPdf.integrableOn
    (MeasureTheory.ae_restrict_of_ae (Filter.Eventually.of_forall normPdf_nonneg))
    (HasSubset.Subset.eventuallyLE (Set.Iic_subset_Iic.mpr h))

theorem normCdf_add_Ioi (x : ℝ) : normCdf x + ∫ t in Set.Ioi x, normPdf t = 1 := by
  have h := MeasureTheory.integral_add_compl (measurableSet_Iic (a := x)) integrable_normPdf
  rw [Set.compl_Iic, integral_normPdf] at h
  unfold normCdf
  exact h

theorem normCdf_neg (x : ℝ) : normCdf (-x) = 1 - normCdf x := by
  have heven : ∀ t : ℝ, normPdf (-t) = normPdf t := by
    intro t
    unfold normPdf
    ring_nf
  have h1 : normCdf (-x) = ∫ t in Set.Iic (-x), normPdf (-t) := by
    unfold normCdf
    simp only [heven]
  rw [h1, integral_comp_neg_Iic, neg_neg]
  have h2 := normCdf_add_Ioi x
  linarith

theorem normCdf_zero : normCdf 0 = 1 / 2 := by
  have h := normCdf_neg 0
  rw [neg_zero] at h
  linarith

theorem half_le_normCdf {x : ℝ} (h : 0 ≤ x) : 1 / 2 ≤ normCdf x :=
  normCdf_zero ▸ normCdf_mono h

theorem normCdf_one_lb : 1 / 2 + normPdf 1 ≤ normCdf 1 := by
  have hunion : Set.Iic (0 : ℝ) ∪ Set.Ioc 0 1 = Set.Iic 1 :=
    Set.Iic_union_Ioc_eq_Iic zero_le_one
  have hdisj : Disjoint (Set.Iic (0 : ℝ)) (Set.Ioc 0 1) := by
    rw [Set.disjoint_left]
    intro a ha hb
    exact absurd hb.1 (not_lt.mpr (Set.mem_Iic.mp ha))
  have hsplit : normCdf 1 = normCdf 0 + ∫ t in Set.Ioc (0 : ℝ) 1, normPdf t := by
    rw [normCdf, normCdf, ← hunion,
      MeasureTheory.setIntegral_union hdisj measurableSet_Ioc
        integrable_normPdf.integrableOn integrable_normPdf.integrableOn]
  have hmono : ∀ t ∈ Set.Ioc (0 : ℝ) 1, normPdf 1 ≤ normPdf t := by
    intro t ht
    obtain ⟨ht0, ht1⟩ := ht
    unfold normPdf
    gcongr
  have hconst : ∫ _ in Set.Ioc (0 : ℝ) 1, normPdf 1 = normPdf 1 := by
    rw [MeasureTheory.setIntegral_const]
    rw [Real.volume_Ioc]
    norm_num
  have hle : ∫ _ in Set.Ioc (0 : ℝ) 1, normPdf 1 ≤ ∫ t in Set.Ioc (0 : ℝ) 1, normPdf t :=
    MeasureTheory.setIntegral_mono_on
      ((MeasureTheory.integrableOn_const).mpr (Or.inr measure_Ioc_lt_top))
      integrable_normPdf.integrableOn measurableSet_Ioc hmono
  rw [hsplit, normCdf_zero]
  rw [hconst] at hle
  linarith

theorem sqrt_two_pi_lb : (2.5 : ℝ) ≤ Real.sqrt (2 * Real.pi) := by
  rw [show (2.5 : ℝ) = Real.sqrt (2.5 ^ 2) by rw [Real.sqrt_sq (by norm_num)]]
  apply Real.sqrt_le_sqrt
  nlinarith [Real.pi_gt_d6]

theorem sqrt_two_pi_ub : Real.sqrt (2 * Real.pi) ≤ 2.51 := by
  rw [show (2.51 : ℝ) = Real.sqrt (2.51 ^ 2) by rw [Real.sqrt_sq (by norm_num)]]
  apply Real.sqrt_le_sqrt
  nlinarith [Real.pi_lt_d6]

theorem normPdf_le (x : ℝ) : normPdf x ≤ 0.4 := by
  have hexp : Real.exp (-(x ^ 2) / 2) ≤ 1 := by
    rw [Real.exp_le_one_iff]
    nlinarith [sq_nonneg x]
  have h : normPdf x ≤ 1 / 2.5 := by
    unfold normPdf
    exact div_le_div₀ (by norm_num) hexp (by norm_num) sqrt_two_pi_lb
  linarith

theorem normPdf_one_lb : (0.199 : ℝ) ≤ normPdf 1 := by
  have hexp : (1 / 2 : ℝ) ≤ Real.exp (-(1 ^ 2) / 2) := by
    have := Real.add_one_le_exp (-(1 ^ 2) / 2 : ℝ)
    linarith
  have hs0 : (0 : ℝ) < Real.sqrt (2 * Real.pi) := lt_of_lt_of_le (by norm_num) sqrt_two_pi_lb
  have h : (1 / 2 : ℝ) / 2.51 ≤ normPdf 1 := by
    unfold normPdf
    exact div_le_div₀ (Real.exp_nonneg _) hexp hs0 sqrt_two_pi_ub
  linarith

theorem normCdf_neg_one_ub : normCdf (-1) ≤ 0.301 := by
  rw [normCdf_neg]
  linarith [normCdf_one_lb, normPdf_one_lb]

/-! # Claims -/

/-- Rounding a `[0.01, 0.99]`-clamped value to 4 decimals stays in
`[0.01, 0.99]`. -/
theorem roundTo_clamp_bounds {α : Type} [LinearOrderedField α] [FloorRing α]
    (y : α) : 0.01 ≤ roundTo 4 (max 0.01 (min 0.99 y))
      ∧ roundTo 4 (max 0.01 (min 0.99 y)) ≤ 0.99 := by
  constructor
  · have h1 : ((100 : ℤ) : α) / 10 ^ 4 = 0.01 := by norm_num
    calc (0.01 : α) = ((100 : ℤ) : α) / 10 ^ 4 := h1.symm
      _ ≤ _ := roundTo_ge_grid (by rw [h1]; exact le_max_left _ _)
  · have h1 : ((9900 : ℤ) : α) / 10 ^ 4 = 0.99 := by norm_num
    have h2 : max (0.01 : α) (min 0.99 y) ≤ 0.99 :=
      max_le (by norm_num) (min_le_left _ _)
    calc roundTo 4 (max (0.01 : α) (min 0.99 y))
        ≤ ((9900 : ℤ) : α) / 10 ^ 4 := roundTo_le_grid (by rw [h1]; exact h2)
      _ = 0.99 := h1

/-! ## C4 — probability of profit -/

/-- Claim **C4** (amended): `compute_probability_of_profit` returns `0.5` exactly
when volatility, spot or breakeven is non-positive (time is floored at one
day, `T = max(dte/365, 1/365)`, so `dte ≤ 0` is *not* degenerate); otherwise
it returns `Φ((ln(spot/breakeven) − 0.5·iv²·T)/(iv·√T))` clamped to
`[0.01, 0.99]` and rounded to 4 decimals, hence always within
`[0.01, 0.99]`. -/
theorem compute_probability_of_profit_spec (breakeven spot iv : ℝ) (dte : ℤ) :
    ((iv ≤ 0 ∨ spot ≤ 0 ∨ breakeven ≤ 0) →
      compute_probability_of_profit breakeven spot iv dte = 0.5)
    ∧ (0 < iv → 0 < spot → 0 < breakeven →
        compute_probability_of_profit breakeven spot iv dte
          = roundTo 4 (max 0.01 (min 0.99 (normCdf
              ((Real.log (spot / breakeven)
                  - 0.5 * iv ^ 2 * max ((dte : ℝ) / 365) (1 / 365))
                / (iv * Real.sqrt (max ((dte : ℝ) / 365) (1 / 365)))))))
        ∧ 0.01 ≤ compute_probability_of_profit breakeven spot iv dte
        ∧ compute_probability_of_profit breakeven spot iv dte ≤ 0.99) := by
  constructor
  · intro h
    unfold compute_probability_of_profit
    rw [if_pos]
    tauto
  · intro hiv hspot hbe
    have hcond : ¬(iv ≤ 0 ∨ max ((dte : ℝ) / 365) (1 / 365) ≤ 0
        ∨ spot ≤ 0 ∨ breakeven ≤ 0) := by
      push_neg
      refine ⟨hiv, ?_, hspot, hbe⟩
      have : (1 / 365 : ℝ) ≤ max ((dte : ℝ) / 365) (1 / 365) := le_max_right _ _
      linarith
    have heq : compute_probability_of_profit breakeven spot iv dte
        = roundTo 4 (max 0.01 (min 0.99 (normCdf
            ((Real.log (spot / breakeven)
                - 0.5 * iv ^ 2 * max ((dte : ℝ) / 365) (1 / 365))
              / (iv * Real.sqrt (max ((dte : ℝ) / 365) (1 / 365))))))) := by
      unfold compute_probability_of_profit
      rw [if_neg hcond]
    refine ⟨heq, ?_, ?_⟩
    · rw [heq]
      exact (roundTo_clamp_bounds _).1
    · rw [heq]
      exact (roundTo_clamp_bounds _).2

/-- Claim **C4** witness: concrete non-degenerate and degenerate inputs. -/
theorem compute_probability_of_profit_spec_witness :
    compute_probability_of_profit 100 100 (-1) 30 = 0.5
    ∧ 0.01 ≤ compute_probability_of_profit 105 100 0.3 30 := by
  constructor
  · exact (compute_probability_of_profit_spec 100 100 (-1) 30).1
      (Or.inl (by norm_num))
  · exact ((compute_probability_of_profit_spec 105 100 0.3 30).2
      (by norm_num) (by norm_num) (by norm_num)).2.1

/-- Claim **C4** counterexample: the claim says non-positive *time* is degenerate
and returns `0.5`, but with `dte = 0` (and positive `iv`, `spot`,
`breakeven`) the code floors `T` to `1/365` and returns the clamped
lognormal probability — here at most `0.301`, not `0.5`. -/
theorem compute_probability_of_profit_dte_zero_ne_half :
    compute_probability_of_profit 100 50 1 0 ≠ 0.5 := by
  have hlog : Real.log ((50 : ℝ) / 100) ≤ -0.69 := by
    rw [show ((50 : ℝ) / 100) = (2 : ℝ)⁻¹ by norm_num, Real.log_inv]
    have := Real.log_two_gt_d9
    linarith
  have hs_pos : (0 : ℝ) < Real.sqrt (1 / 365) := Real.sqrt_pos.mpr (by norm_num)
  have hs_ub : Real.sqrt (1 / 365 : ℝ) ≤ 1 / 19 := by
    rw [show (1 / 19 : ℝ) = Real.sqrt ((1 / 19) ^ 2) by
      rw [Real.sqrt_sq (by norm_num)]]
    apply Real.sqrt_le_sqrt
    norm_num
  have hd2 : (Real.log ((50 : ℝ) / 100) - 0.5 * 1 ^ 2 * (1 / 365))
      / (1 * Real.sqrt (1 / 365)) ≤ -1 := by
    rw [one_mul, div_le_iff₀ hs_pos]
    nlinarith
  have hcdf : normCdf ((Real.log ((50 : ℝ) / 100) - 0.5 * 1 ^ 2 * (1 / 365))
      / (1 * Real.sqrt (1 / 365))) ≤ 0.301 :=
    le_trans (normCdf_mono hd2) normCdf_neg_one_ub
  have hval : compute_probability_of_profit 100 50 1 0
      = roundTo 4 (max 0.01 (min 0.99 (normCdf
          ((Real.log ((50 : ℝ) / 100) - 0.5 * 1 ^ 2 * (1 / 365))
            / (1 * Real.sqrt (1 / 365)))))) := by
    simp only [compute_probability_of_profit, Int.cast_zero, zero_div]
    rw [show max (0 : ℝ) (1 / 365) = 1 / 365 from max_eq_right (by norm_num)]
    rw [if_neg (by norm_num)]
  rw [hval]
  have hclamp : max (0.01 : ℝ) (min 0.99 (normCdf
      ((Real.log ((50 : ℝ) / 100) - 0.5 * 1 ^ 2 * (1 / 365))
        / (1 * Real.sqrt (1 / 365))))) ≤ 0.301 :=
    max_le (by norm_num) (le_trans (min_le_right _ _) hcdf)
  have h1 : ((3010 : ℤ) : ℝ) / 10 ^ 4 = 0.301 := by norm_num
  have := roundTo_le_grid (x := max (0.01 : ℝ) (min 0.99 (normCdf
      ((Real.log ((50 : ℝ) / 100) - 0.5 * 1 ^ 2 * (1 / 365))
        / (1 * Real.sqrt (1 / 365)))))) (n := 4) (k := 3010)
    (by rw [h1]; exact hclamp)
  rw [h1] at this
  intro hcontr
  rw [hcontr] at this
  norm_num at this

/-! ## C3 — Black-Scholes greeks -/

/-- Claim **C3** (amended): for `S, K, T, σ > 0` the call delta is in `[0, 1]`,
the put delta in `[-1, 0]`, gamma and vega are non-negative for both kinds;
theta is non-positive for calls whenever `r ≥ 0` and for puts whenever
`r ≤ 0` (a deep-ITM put with a positive rate can have positive theta, see
the counterexample).  Degenerate input returns all-zero greeks. -/
theorem compute_greeks_spec (S K T r sigma : ℝ) :
    ((0 < S ∧ 0 < K ∧ 0 < T ∧ 0 < sigma) →
      (0 ≤ (compute_greeks S K T r sigma OptionType.call).delta
        ∧ (compute_greeks S K T r sigma OptionType.call).delta ≤ 1)
      ∧ (-1 ≤ (compute_greeks S K T r sigma OptionType.put).delta
        ∧ (compute_greeks S K T r sigma OptionType.put).delta ≤ 0)
      ∧ (∀ ot, 0 ≤ (compute_greeks S K T r sigma ot).gamma)
      ∧ (∀ ot, 0 ≤ (compute_greeks S K T r sigma ot).vega)
      ∧ (0 ≤ r → (compute_greeks S K T r sigma OptionType.call).theta ≤ 0)
      ∧ (r ≤ 0 → (compute_greeks S K T r sigma OptionType.put).theta ≤ 0))
    ∧ ((T ≤ 0 ∨ sigma ≤ 0 ∨ S ≤ 0 ∨ K ≤ 0) →
      ∀ ot, compute_greeks S K T r sigma ot =
        { delta := 0, gamma := 0, theta := 0, vega := 0, rho := 0 }) := by
  constructor
  · rintro ⟨hS, hK, hT, hsigma⟩
    have hcond : ¬(T ≤ 0 ∨ sigma ≤ 0 ∨ S ≤ 0 ∨ K ≤ 0) := by
      push_neg
      exact ⟨hT, hsigma, hS, hK⟩
    have hsqrt : 0 < Real.sqrt T := Real.sqrt_pos.mpr hT
    simp only [compute_greeks, if_neg hcond, reduceIte, reduceCtorEq]
    set d1 := (Real.log (S / K) + (r + 0.5 * sigma ^ 2) * T) / (sigma * Real.sqrt T)
      with hd1
    set d2 := d1 - sigma * Real.sqrt T with hd2
    have hnum : -(S * normPdf d1 * sigma) / (2 * Real.sqrt T) ≤ 0 :=
      div_nonpos_of_nonpos_of_nonneg
        (neg_nonpos_of_nonneg
          (mul_nonneg (mul_nonneg hS.le (normPdf_nonneg _)) hsigma.le))
        (by positivity)
    refine ⟨⟨?_, ?_⟩, ⟨?_, ?_⟩, ?_, ?_, ?_, ?_⟩
    · exact roundTo_nonneg (normCdf_nonneg d1)
    · exact roundTo_le_one (normCdf_le_one d1)
    · exact neg_one_le_roundTo (by linarith [normCdf_nonneg d1])
    · exact roundTo_nonpos (by linarith [normCdf_le_one d1])
    · intro ot
      exact roundTo_nonneg (div_nonneg (normPdf_nonneg d1)
        (le_of_lt (mul_pos (mul_pos hS hsigma) hsqrt)))
    · intro ot
      exact roundTo_nonneg (div_nonneg
        (mul_nonneg (mul_nonneg hS.le (normPdf_nonneg _)) (Real.sqrt_nonneg _))
        (by norm_num))
    · intro hr
      apply roundTo_nonpos
      have h2 : 0 ≤ r * K * Real.exp (-r * T) * normCdf d2 :=
        mul_nonneg (mul_nonneg (mul_nonneg hr hK.le) (Real.exp_nonneg _))
          (normCdf_nonneg _)
      have h3 : -(S * normPdf d1 * sigma) / (2 * Real.sqrt T)
          - r * K * Real.exp (-r * T) * normCdf d2 ≤ 0 := by linarith
      linarith [div_nonpos_of_nonpos_of_nonneg h3 (by norm_num : (0:ℝ) ≤ 365)]
    · intro hr
      apply roundTo_nonpos
      have h2 : r * K * Real.exp (-r * T) * normCdf (-d2) ≤ 0 :=
        mul_nonpos_of_nonpos_of_nonneg
          (mul_nonpos_of_nonpos_of_nonneg
            (mul_nonpos_of_nonpos_of_nonneg hr (le_of_lt hK))
            (Real.exp_nonneg _))
          (normCdf_nonneg _)
      have h3 : -(S * normPdf d1 * sigma) / (2 * Real.sqrt T)
          + r * K * Real.exp (-r * T) * normCdf (-d2) ≤ 0 := by linarith
      linarith [div_nonpos_of_nonpos_of_nonneg h3 (by norm_num : (0:ℝ) ≤ 365)]
  · intro h ot
    simp only [compute_greeks, if_pos h]

/-- Claim **C3** witness: non-degenerate bounds at
`S=100, K=100, T=1, r=0, σ=1` (where `r = 0` satisfies both sign
hypotheses on theta) and all-zero greeks at `T = 0`. -/
theorem compute_greeks_spec_witness :
    (0 ≤ (compute_greeks 100 100 1 0 1 OptionType.call).delta
      ∧ (compute_greeks 100 100 1 0 1 OptionType.call).theta ≤ 0
      ∧ (compute_greeks 100 100 1 0 1 OptionType.put).theta ≤ 0)
    ∧ compute_greeks 100 100 0 0 1 OptionType.call =
        { delta := 0, gamma := 0, theta := 0, vega := 0, rho := 0 } := by
  have h := compute_greeks_spec 100 100 1 0 1
  have h1 := h.1 ⟨by norm_num, by norm_num, by norm_num, by norm_num⟩
  exact ⟨⟨h1.1.1, h1.2.2.2.2.1 le_rfl, h1.2.2.2.2.2 le_rfl⟩,
    (compute_greeks_spec 100 100 0 0 1).2 (Or.inl le_rfl) OptionType.call⟩

/-- Claim **C3** counterexample: the claim asserts `theta ≤ 0` for both option
kinds on every valid input, but a deep-in-the-money put with a positive
risk-free rate (`S=100, K=10000, T=1, r=0.05, σ=0.1`) has strictly positive
theta: the carry term `r·K·e^{-rT}·Φ(-d2)` dominates. -/
theorem compute_greeks_put_theta_pos :
    0 < (compute_greeks 100 10000 1 0.05 0.1 OptionType.put).theta := by
  have hcond : ¬((1 : ℝ) ≤ 0 ∨ (0.1 : ℝ) ≤ 0 ∨ (100 : ℝ) ≤ 0 ∨ (10000 : ℝ) ≤ 0) := by
    norm_num
  simp only [compute_greeks, if_neg hcond, Real.sqrt_one, reduceCtorEq,
    if_neg (by simp : ¬(OptionType.put = OptionType.call))]
  set d1 := (Real.log ((100 : ℝ) / 10000) + (0.05 + 0.5 * 0.1 ^ 2) * 1) / (0.1 * 1)
    with hd1
  have hlog : Real.log ((100 : ℝ) / 10000) ≤ -1 := by
    rw [show ((100 : ℝ) / 10000) = ((100 : ℝ))⁻¹ by norm_num, Real.log_inv]
    have h100 : Real.exp 1 ≤ 100 :=
      le_trans (le_of_lt Real.exp_one_lt_d9) (by norm_num)
    have := (Real.le_log_iff_exp_le (by norm_num : (0:ℝ) < 100)).mpr h100
    linarith
  have hd1neg : d1 ≤ 0 := by
    rw [hd1]
    apply div_nonpos_of_nonpos_of_nonneg _ (by norm_num)
    linarith
  have hd2 : -(d1 - 0.1 * 1) = -d1 + 0.1 := by ring
  have hΦ : (1 / 2 : ℝ) ≤ normCdf (-(d1 - 0.1 * 1)) := by
    apply half_le_normCdf
    rw [hd2]
    linarith
  have hφub : normPdf d1 ≤ 0.4 := normPdf_le d1
  have hφlb : 0 ≤ normPdf d1 := normPdf_nonneg d1
  have hexp : (0.95 : ℝ) ≤ Real.exp (-0.05 * 1) := by
    have := Real.add_one_le_exp (-0.05 * 1 : ℝ)
    linarith
  have hΦub : normCdf (-(d1 - 0.1 * 1)) ≤ 1 := normCdf_le_one _
  have hkey : (0.6 : ℝ) ≤ (-(100 * normPdf d1 * 0.1) / (2 * 1)
      + 0.05 * 10000 * Real.exp (-0.05 * 1) * normCdf (-(d1 - 0.1 * 1))) / 365 := by
    rw [le_div_iff₀ (by norm_num : (0:ℝ) < 365)]
    have hB : (237.5 : ℝ) ≤ 0.05 * 10000 * Real.exp (-0.05 * 1)
        * normCdf (-(d1 - 0.1 * 1)) := by
      nlinarith
    nlinarith
  have hgrid : ((1 : ℤ) : ℝ) / 10 ^ 6 ≤ (-(100 * normPdf d1 * 0.1) / (2 * 1)
      + 0.05 * 10000 * Real.exp (-0.05 * 1) * normCdf (-(d1 - 0.1 * 1))) / 365 := by
    calc ((1 : ℤ) : ℝ) / 10 ^ 6 ≤ 0.6 := by norm_num
      _ ≤ _ := hkey
  calc (0 : ℝ) < ((1 : ℤ) : ℝ) / 10 ^ 6 := by norm_num
    _ ≤ _ := roundTo_ge_grid hgrid

/-! ## C1 / C5 — spread-constructor invariants -/

theorem mk_bull_call_candidate_spec {spot : ℚ} {dte expiry : ℤ} {st : SpreadType}
    {a b : OptionQuote} {c : SpreadCandidate}
    (h : mk_bull_call_candidate spot dte expiry st a b = some c) :
    c.spread_type = st ∧ c.long_leg = a ∧ c.short_leg = some b
      ∧ 0 < c.net_debit ∧ 0 < c.max_profit ∧ c.max_loss = c.net_debit
      ∧ c.spread_width = roundTo 2 |b.strike - a.strike| := by
  simp only [mk_bull_call_candidate] at h
  split_ifs at h with h1 h2 h3
  obtain rfl := (Option.some.inj h).symm
  have hnd : 0 < roundTo 4 (a.ask - b.bid) := lt_of_not_le h2
  have hmp : 0 < roundTo 4 (roundTo 2 (b.strike - a.strike)
      - roundTo 4 (a.ask - b.bid)) := lt_of_not_le h3
  have hw : 0 < roundTo 2 (b.strike - a.strike) := by
    have := pos_of_roundTo_pos hmp
    linarith
  have hdiff : 0 < b.strike - a.strike := pos_of_roundTo_pos hw
  refine ⟨rfl, rfl, rfl, hnd, hmp, rfl, ?_⟩
  show roundTo 2 (b.strike - a.strike) = roundTo 2 |b.strike - a.strike|
  rw [abs_of_pos hdiff]

theorem mk_bear_put_candidate_spec {spot : ℚ} {dte expiry : ℤ}
    {a b : OptionQuote} {c : SpreadCandidate}
    (h : mk_bear_put_candidate spot dte expiry a b = some c) :
    c.spread_type = SpreadType.bear_put ∧ c.long_leg = a ∧ c.short_leg = some b
      ∧ 0 < c.net_debit ∧ 0 < c.max_profit ∧ c.max_loss = c.net_debit
      ∧ c.spread_width = roundTo 2 |b.strike - a.strike| := by
  simp only [mk_bear_put_candidate] at h
  split_ifs at h with h1 h2 h3
  obtain rfl := (Option.some.inj h).symm
  have hnd : 0 < roundTo 4 (a.ask - b.bid) := lt_of_not_le h2
  have hmp : 0 < roundTo 4 (roundTo 2 (a.strike - b.strike)
      - roundTo 4 (a.ask - b.bid)) := lt_of_not_le h3
  have hw : 0 < roundTo 2 (a.strike - b.strike) := by
    have := pos_of_roundTo_pos hmp
    linarith
  have hdiff : 0 < a.strike - b.strike := pos_of_roundTo_pos hw
  refine ⟨rfl, rfl, rfl, hnd, hmp, rfl, ?_⟩
  show roundTo 2 (a.strike - b.strike) = roundTo 2 |b.strike - a.strike|
  rw [abs_sub_comm, abs_of_pos hdiff]

theorem bull_call_loop_mem {spot : ℚ} {dte expiry : ℤ} {st : SpreadType} :
    ∀ {l : List OptionQuote} {c : SpreadCandidate},
      c ∈ bull_call_loop spot dte expiry st l →
      ∃ a b, mk_bull_call_candidate spot dte expiry st a b = some c := by
  intro l
  induction l with
  | nil => intro c h; simp [bull_call_loop] at h
  | cons hd tl ih =>
    intro c h
    rw [bull_call_loop] at h
    split_ifs at h with h1
    · simp at h
    · rcases List.mem_append.mp h with h2 | h2
      · obtain ⟨b, _, hb⟩ := List.mem_filterMap.mp h2
        exact ⟨hd, b, hb⟩
      · exact ih h2

theorem bear_put_loop_mem {spot : ℚ} {dte expiry : ℤ} :
    ∀ {l : List OptionQuote} {c : SpreadCandidate},
      c ∈ bear_put_loop spot dte expiry l →
      ∃ a b, mk_bear_put_candidate spot dte expiry a b = some c := by
  intro l
  induction l with
  | nil => intro c h; simp [bear_put_loop] at h
  | cons hd tl ih =>
    intro c h
    rw [bear_put_loop] at h
    split_ifs at h with h1
    · simp at h
    · rcases List.mem_append.mp h with h2 | h2
      · obtain ⟨b, _, hb⟩ := List.mem_filterMap.mp h2
        exact ⟨hd, b, hb⟩
      · exact ih h2

theorem build_bull_call_spreads_mem {today : ℤ} {calls : List OptionQuote}
    {spot : ℚ} {st : SpreadType} {c : SpreadCandidate}
    (h : c ∈ build_bull_call_spreads today calls spot st) :
    ∃ d e a b, mk_bull_call_candidate spot d e st a b = some c := by
  simp only [build_bull_call_spreads] at h
  obtain ⟨g, _, hg⟩ := List.mem_flatMap.mp h
  obtain ⟨a, b, hab⟩ := bull_call_loop_mem hg
  exact ⟨g.1 - today, g.1, a, b, hab⟩

theorem build_bear_put_spreads_mem {today : ℤ} {puts : List OptionQuote}
    {spot : ℚ} {c : SpreadCandidate}
    (h : c ∈ build_bear_put_spreads today puts spot) :
    ∃ d e a b, mk_bear_put_candidate spot d e a b = some c := by
  simp only [build_bear_put_spreads] at h
  obtain ⟨g, _, hg⟩ := List.mem_flatMap.mp h
  obtain ⟨a, b, hab⟩ := bear_put_loop_mem hg
  exact ⟨g.1 - today, g.1, a, b, hab⟩

theorem build_leaps_spec {today : ℤ} {options : List OptionQuote} {spot : ℚ}
    {st : SpreadType} {c : SpreadCandidate}
    (h : c ∈ build_leaps today options spot st) :
    c.spread_type = st ∧ c.short_leg = none ∧ 365 ≤ c.dte
      ∧ 0.65 ≤ |c.long_leg.delta| ∧ c.net_debit = c.long_leg.ask
      ∧ c.max_loss = c.long_leg.ask ∧ c.probability_of_profit = 0.5
      ∧ c.max_profit = 9999 := by
  simp only [build_leaps] at h
  obtain ⟨opt, _, hopt⟩ := List.mem_filterMap.mp h
  split_ifs at hopt with h1 h2 h3 h4
  all_goals obtain rfl := (Option.some.inj hopt).symm
  all_goals exact ⟨rfl, rfl,
    by show (365 : ℤ) ≤ opt.expiration - today; omega,
    le_of_not_lt h2, rfl, rfl, rfl,
    by show (9999.0 : ℚ) = 9999; norm_num⟩

/-- Claim **C1** (amended): every two-leg candidate returned by
`build_all_spreads` (bull-call, bear-put, or the LEAPS-width bull-call
variant — exactly the candidates with a short leg) satisfies
`net_debit > 0`, `max_profit > 0`, `max_loss = net_debit`, and
`spread_width` equal to the absolute difference of the short and long
strikes **rounded to 2 decimal places** (the code stores
`round(short.strike - long.strike, 2)`). -/
theorem two_leg_spread_invariants (today : ℤ) (calls puts : List OptionQuote)
    (strategies : List SpreadType) (spot : ℚ) (c : SpreadCandidate)
    (hc : c ∈ build_all_spreads today calls puts strategies spot)
    (s : OptionQuote) (hs : c.short_leg = some s) :
    0 < c.net_debit ∧ 0 < c.max_profit ∧ c.max_loss = c.net_debit
      ∧ c.spread_width = roundTo 2 |s.strike - c.long_leg.strike| := by
  simp only [build_all_spreads] at hc
  obtain ⟨strat, _, hmem⟩ := List.mem_flatMap.mp hc
  cases strat with
  | bull_call =>
    obtain ⟨d, e, a, b, hab⟩ := build_bull_call_spreads_mem hmem
    obtain ⟨_, hlong, hshort, h1, h2, h3, h4⟩ := mk_bull_call_candidate_spec hab
    obtain rfl : b = s := Option.some.inj (hshort.symm.trans hs)
    rw [hlong]
    exact ⟨h1, h2, h3, h4⟩
  | leaps_spread_call =>
    obtain ⟨d, e, a, b, hab⟩ := build_bull_call_spreads_mem hmem
    obtain ⟨_, hlong, hshort, h1, h2, h3, h4⟩ := mk_bull_call_candidate_spec hab
    obtain rfl : b = s := Option.some.inj (hshort.symm.trans hs)
    rw [hlong]
    exact ⟨h1, h2, h3, h4⟩
  | bear_put =>
    obtain ⟨d, e, a, b, hab⟩ := build_bear_put_spreads_mem hmem
    obtain ⟨_, hlong, hshort, h1, h2, h3, h4⟩ := mk_bear_put_candidate_spec hab
    obtain rfl : b = s := Option.some.inj (hshort.symm.trans hs)
    rw [hlong]
    exact ⟨h1, h2, h3, h4⟩
  | leap_call =>
    obtain ⟨_, hnone, _⟩ := build_leaps_spec hmem
    rw [hnone] at hs
    exact absurd hs (by simp)
  | leap_put =>
    obtain ⟨_, hnone, _⟩ := build_leaps_spec hmem
    rw [hnone] at hs
    exact absurd hs (by simp)

/-- Claim **C5** (amended): every single-leg LEAPS candidate (the candidates
tagged `leap_call`/`leap_put`) has `dte ≥ 365`, `|delta| ≥ 0.65`, net debit
and max loss equal to the long leg's ask premium, probability of profit
exactly `0.5`, no short leg — and max profit equal to the `9999.0` sentinel
for **both** long calls and long puts (the code does not cap a long put's
max profit at the strike value). -/
theorem leaps_candidate_properties (today : ℤ) (calls puts : List OptionQuote)
    (strategies : List SpreadType) (spot : ℚ) (c : SpreadCandidate)
    (hc : c ∈ build_all_spreads today calls puts strategies spot)
    (hty : c.spread_type = SpreadType.leap_call
      ∨ c.spread_type = SpreadType.leap_put) :
    365 ≤ c.dte ∧ 0.65 ≤ |c.long_leg.delta| ∧ c.net_debit = c.long_leg.ask
      ∧ c.max_loss = c.long_leg.ask ∧ c.probability_of_profit = 0.5
      ∧ c.max_profit = 9999 ∧ c.short_leg = none := by
  simp only [build_all_spreads] at hc
  obtain ⟨strat, _, hmem⟩ := List.mem_flatMap.mp hc
  cases strat with
  | bull_call =>
    obtain ⟨d, e, a, b, hab⟩ := build_bull_call_spreads_mem hmem
    obtain ⟨hty', _⟩ := mk_bull_call_candidate_spec hab
    rw [hty'] at hty
    rcases hty with h | h
    · exact absurd h (by simp)
    · exact absurd h (by simp)
  | leaps_spread_call =>
    obtain ⟨d, e, a, b, hab⟩ := build_bull_call_spreads_mem hmem
    obtain ⟨hty', _⟩ := mk_bull_call_candidate_spec hab
    rw [hty'] at hty
    rcases hty with h | h
    · exact absurd h (by simp)
    · exact absurd h (by simp)
  | bear_put =>
    obtain ⟨d, e, a, b, hab⟩ := build_bear_put_spreads_mem hmem
    obtain ⟨hty', _⟩ := mk_bear_put_candidate_spec hab
    rw [hty'] at hty
    rcases hty with h | h
    · exact absurd h (by simp)
    · exact absurd h (by simp)
  | leap_call =>
    obtain ⟨_, h1, h2, h3, h4, h5, h6, h7⟩ := build_leaps_spec hmem
    exact ⟨h2, h3, h4, h5, h6, h7, h1⟩
  | leap_put =>
    obtain ⟨_, h1, h2, h3, h4, h5, h6, h7⟩ := build_leaps_spec hmem
    exact ⟨h2, h3, h4, h5, h6, h7, h1⟩

theorem wit_bull_list_eq :
    build_all_spreads 0 [wit_call_long, wit_call_short] []
      [SpreadType.bull_call] 100 = [wit_bull_candidate] := by
  with_unfolding_all rfl

/-- Claim **C1** witness: the invariants instantiated on the concrete
100/110 bull-call chain. -/
theorem two_leg_spread_invariants_witness :
    0 < wit_bull_candidate.net_debit ∧ 0 < wit_bull_candidate.max_profit
      ∧ wit_bull_candidate.max_loss = wit_bull_candidate.net_debit
      ∧ wit_bull_candidate.spread_width
        = roundTo 2 |wit_call_short.strike - wit_bull_candidate.long_leg.strike| :=
  two_leg_spread_invariants 0 [wit_call_long, wit_call_short] []
    [SpreadType.bull_call] 100 wit_bull_candidate
    (by rw [wit_bull_list_eq]; exact List.mem_singleton_self wit_bull_candidate)
    wit_call_short rfl

/-- Claim **C1** counterexample: with strikes 100 and 110.004 the constructor
returns exactly one candidate whose stored `spread_width` is the 2-decimal
rounding `10`, not the absolute strike difference `10.004` — the claim
`spread_width = |short.strike - long.strike|` fails. -/
theorem spread_width_not_abs_difference :
    build_all_spreads 0 [wit_call_long, frac_call_short] []
      [SpreadType.bull_call] 100 = [frac_bull_candidate]
    ∧ frac_bull_candidate.short_leg = some frac_call_short
    ∧ frac_bull_candidate.spread_width
      ≠ |frac_call_short.strike - frac_bull_candidate.long_leg.strike| := by
  refine ⟨by with_unfolding_all rfl, rfl, ?_⟩
  show (10 : ℚ) ≠ |(110.004 : ℚ) - 100|
  rw [show |(110.004 : ℚ) - 100| = 10.004 by
    rw [show (110.004 : ℚ) - 100 = 10.004 by norm_num, abs_of_pos] <;> norm_num]
  norm_num

theorem wit_leap_list_eq :
    build_all_spreads 0 [wit_leap_call] [] [SpreadType.leap_call] 100
      = [wit_leap_call_candidate] := by
  with_unfolding_all rfl

/-- Claim **C5** witness: the LEAPS properties instantiated on the concrete
deep-ITM call. -/
theorem leaps_candidate_properties_witness :
    365 ≤ wit_leap_call_candidate.dte
      ∧ 0.65 ≤ |wit_leap_call_candidate.long_leg.delta|
      ∧ wit_leap_call_candidate.net_debit = wit_leap_call_candidate.long_leg.ask
      ∧ wit_leap_call_candidate.max_loss = wit_leap_call_candidate.long_leg.ask
      ∧ wit_leap_call_candidate.probability_of_profit = 0.5
      ∧ wit_leap_call_candidate.max_profit = 9999
      ∧ wit_leap_call_candidate.short_leg = none :=
  leaps_candidate_properties 0 [wit_leap_call] [] [SpreadType.leap_call] 100
    wit_leap_call_candidate
    (by rw [wit_leap_list_eq]; exact List.mem_singleton_self wit_leap_call_candidate)
    (Or.inl rfl)

/-- Claim **C5** counterexample: for a long put with strike 50 and premium 5 the
single produced LEAPS candidate has `max_profit = 9999` (the sentinel), not
a value capped at the strike value — the claim's put-specific cap does not
exist in the code. -/
theorem leap_put_max_profit_not_strike_capped :
    build_all_spreads 0 [] [wit_leap_put] [SpreadType.leap_put] 100
      = [wit_leap_put_candidate]
    ∧ wit_leap_put_candidate.max_profit = 9999
    ∧ wit_leap_put_candidate.long_leg.strike = 50
    ∧ ¬(wit_leap_put_candidate.max_profit ≤ wit_leap_put_candidate.long_leg.strike) := by
  refine ⟨by with_unfolding_all rfl, ?_, rfl, ?_⟩
  · show (9999.0 : ℚ) = 9999
    norm_num
  · show ¬((9999.0 : ℚ) ≤ 50)
    norm_num

/-! ## C6 — fundamentals scoring -/

theorem pe_score_bounds (pe : Option ℚ) : 0 ≤ pe_score pe ∧ pe_score pe ≤ 100 := by
  unfold pe_score
  rcases pe with _ | pe
  · norm_num
  · dsimp only
    split_ifs with h1 h2 h3 h4 <;>
      refine ⟨?_, ?_⟩ <;>
      first
        | linarith
        | (ring_nf; linarith)
        | exact le_max_left 0 _
        | exact max_le (by norm_num) (by linarith)
        | exact max_le (by norm_num) (by ring_nf; linarith)

theorem growth_single_score_bounds (g : Option ℚ) :
    0 ≤ growth_single_score g ∧ growth_single_score g ≤ 100 := by
  unfold growth_single_score
  rcases g with _ | g
  · norm_num
  · dsimp only
    split_ifs with h1 h2 h3 h4 <;>
      refine ⟨?_, ?_⟩ <;>
      first
        | linarith
        | (ring_nf; linarith)
        | exact le_max_left 0 _
        | exact max_le (by norm_num) (by linarith)
        | exact max_le (by norm_num) (by ring_nf; linarith)

theorem growth_score_bounds (r e : Option ℚ) :
    0 ≤ growth_score r e ∧ growth_score r e ≤ 100 := by
  obtain ⟨h1, h2⟩ := growth_single_score_bounds r
  obtain ⟨h3, h4⟩ := growth_single_score_bounds e
  unfold growth_score
  exact ⟨roundTo_nonneg (by linarith), roundTo_le_hundred (by linarith)⟩

theorem debt_score_bounds (de : Option ℚ) : 0 ≤ debt_score de ∧ debt_score de ≤ 100 := by
  unfold debt_score
  rcases de with _ | de
  · norm_num
  · dsimp only
    split_ifs with h1 h2 h3 h4 h5 <;>
      refine ⟨?_, ?_⟩ <;>
      first
        | linarith
        | (ring_nf; linarith)
        | exact le_max_left 0 _
        | exact max_le (by norm_num) (by linarith)
        | exact max_le (by norm_num) (by ring_nf; linarith)

theorem margin_gross_score_bounds (g : Option ℚ) :
    0 ≤ margin_gross_score g ∧ margin_gross_score g ≤ 100 := by
  unfold margin_gross_score
  rcases g with _ | g
  · norm_num
  · dsimp only
    split_ifs with h1 h2 h3 <;>
      refine ⟨?_, ?_⟩ <;>
      first
        | linarith
        | (ring_nf; linarith)
        | exact le_max_left 0 _
        | exact max_le (by norm_num) (by linarith)
        | exact max_le (by norm_num) (by ring_nf; linarith)

theorem margin_op_score_bounds (op : Option ℚ) :
    0 ≤ margin_op_score op ∧ margin_op_score op ≤ 100 := by
  unfold margin_op_score
  rcases op with _ | op
  · norm_num
  · dsimp only
    split_ifs with h1 h2 h3 <;>
      refine ⟨?_, ?_⟩ <;>
      first
        | linarith
        | (ring_nf; linarith)
        | exact le_max_left 0 _
        | exact max_le (by norm_num) (by linarith)
        | exact max_le (by norm_num) (by ring_nf; linarith)

theorem margin_score_bounds (g op : Option ℚ) :
    0 ≤ margin_score g op ∧ margin_score g op ≤ 100 := by
  obtain ⟨h1, h2⟩ := margin_gross_score_bounds g
  obtain ⟨h3, h4⟩ := margin_op_score_bounds op
  unfold margin_score
  exact ⟨roundTo_nonneg (by linarith), roundTo_le_hundred (by linarith)⟩

theorem roe_score_bounds (roe : Option ℚ) : 0 ≤ roe_score roe ∧ roe_score roe ≤ 100 := by
  unfold roe_score
  rcases roe with _ | roe
  · norm_num
  · dsimp only
    split_ifs with h1 h2 h3 h4 <;>
      refine ⟨?_, ?_⟩ <;>
      first
        | linarith
        | (ring_nf; linarith)
        | exact le_max_left 0 _
        | exact max_le (by norm_num) (by linarith)
        | exact max_le (by norm_num) (by ring_nf; linarith)

theorem fcf_score_bounds (f : Option ℚ) : 0 ≤ fcf_score f ∧ fcf_score f ≤ 100 := by
  unfold fcf_score
  rcases f with _ | f
  · norm_num
  · dsimp only
    split_ifs with h1 h2 h3 <;>
      refine ⟨?_, ?_⟩ <;>
      first
        | linarith
        | (ring_nf; linarith)
        | exact le_max_left 0 _
        | exact max_le (by norm_num) (by linarith)
        | exact max_le (by norm_num) (by ring_nf; linarith)

/-- Claim **C6**: `FundamentalsScorer.score` always attaches a
`fundamental_score` in `[0, 100]`, and a record with every scored metric
missing lands in the neutral band `[30, 70]` (it scores exactly 50). -/
theorem fundamentals_score_spec (fund : FundamentalData) :
    ∃ s, (FundamentalsScorer.score fund).fundamental_score = some s
      ∧ 0 ≤ s ∧ s ≤ 100
      ∧ ((fund.pe_ratio = none ∧ fund.revenue_growth_yoy = none
          ∧ fund.earnings_growth_yoy = none ∧ fund.debt_to_equity = none
          ∧ fund.gross_margin = none ∧ fund.operating_margin = none
          ∧ fund.return_on_equity = none ∧ fund.free_cash_flow_yield = none) →
        30 ≤ s ∧ s ≤ 70) := by
  refine ⟨_, rfl, ?_, ?_, ?_⟩
  · obtain ⟨p1, _⟩ := pe_score_bounds fund.pe_ratio
    obtain ⟨g1, _⟩ := growth_score_bounds fund.revenue_growth_yoy fund.earnings_growth_yoy
    obtain ⟨d1, _⟩ := debt_score_bounds fund.debt_to_equity
    obtain ⟨m1, _⟩ := margin_score_bounds fund.gross_margin fund.operating_margin
    obtain ⟨r1, _⟩ := roe_score_bounds fund.return_on_equity
    obtain ⟨f1, _⟩ := fcf_score_bounds fund.free_cash_flow_yield
    exact roundTo_nonneg (by nlinarith)
  · obtain ⟨_, p2⟩ := pe_score_bounds fund.pe_ratio
    obtain ⟨g1, g2⟩ := growth_score_bounds fund.revenue_growth_yoy fund.earnings_growth_yoy
    obtain ⟨d1, d2⟩ := debt_score_bounds fund.debt_to_equity
    obtain ⟨m1, m2⟩ := margin_score_bounds fund.gross_margin fund.operating_margin
    obtain ⟨r1, r2⟩ := roe_score_bounds fund.return_on_equity
    obtain ⟨f1, f2⟩ := fcf_score_bounds fund.free_cash_flow_yield
    obtain ⟨p1, _⟩ := pe_score_bounds fund.pe_ratio
    exact roundTo_le_hundred (by nlinarith)
  · rintro ⟨h1, h2, h3, h4, h5, h6, h7, h8⟩
    rw [h1, h2, h3, h4, h5, h6, h7, h8]
    have hg : growth_score none none = 50 := by
      unfold growth_score growth_single_score
      norm_num [roundTo_fifty]
    have hm : margin_score none none = 50 := by
      unfold margin_score margin_gross_score margin_op_score
      norm_num [roundTo_fifty]
    simp only [pe_score, debt_score, roe_score, fcf_score, hg, hm]
    norm_num [roundTo_fifty]

/-- Claim **C6** witness: the all-missing record scores inside the neutral band. -/
theorem fundamentals_score_spec_witness :
    30 ≤ ((FundamentalsScorer.score (FundamentalData.default "X")).fundamental_score.getD 0)
    ∧ ((FundamentalsScorer.score (FundamentalData.default "X")).fundamental_score.getD 0) ≤ 70 := by
  obtain ⟨s, hs, _, _, hneutral⟩ := fundamentals_score_spec (FundamentalData.default "X")
  obtain ⟨h30, h70⟩ := hneutral ⟨rfl, rfl, rfl, rfl, rfl, rfl, rfl, rfl⟩
  rw [hs, Option.getD_some]
  exact ⟨h30, h70⟩

/-! ## C7 — sentiment aggregation -/

/-- Claim **C7** (amended): `aggregate` on an empty result list returns the fixed
neutral record; on a non-empty list the stored `avg_compound` is the
channel-mean difference **rounded to 4 decimals**, `sentiment_score` is
`((compound + 1)/2)·100` (computed from the unrounded compound) **rounded to
2 decimals**, and `sentiment_label` is a channel whose mean is maximal (ties
resolved in the order positive, negative, neutral). -/
theorem aggregate_spec (now symbol : String) (results : List SentimentResult)
    (articles : Option (List NewsArticle)) (headlines : Option (List String)) :
    (results = [] →
      (aggregate now symbol results articles headlines).sentiment_score = 50
      ∧ (aggregate now symbol results articles headlines).sentiment_label = "neutral"
      ∧ (aggregate now symbol results articles headlines).articles_analyzed = 0
      ∧ (aggregate now symbol results articles headlines).avg_positive = 0.33
      ∧ (aggregate now symbol results articles headlines).avg_negative = 0.33
      ∧ (aggregate now symbol results articles headlines).avg_neutral = 0.34
      ∧ (aggregate now symbol results articles headlines).avg_compound = 0)
    ∧ (results ≠ [] →
      (aggregate now symbol results articles headlines).avg_compound
        = roundTo 4 ((results.map SentimentResult.positive).sum / (results.length : ℚ)
            - (results.map SentimentResult.negative).sum / (results.length : ℚ))
      ∧ (aggregate now symbol results articles headlines).sentiment_score
        = roundTo 2 (((results.map SentimentResult.positive).sum / (results.length : ℚ)
            - (results.map SentimentResult.negative).sum / (results.length : ℚ) + 1) / 2 * 100)
      ∧ ∃ m, ((aggregate now symbol results articles headlines).sentiment_label, m)
          ∈ [("positive", (results.map SentimentResult.positive).sum / (results.length : ℚ)),
             ("negative", (results.map SentimentResult.negative).sum / (results.length : ℚ)),
             ("neutral", (results.map SentimentResult.neutral).sum / (results.length : ℚ))]
          ∧ (results.map SentimentResult.positive).sum / (results.length : ℚ) ≤ m
          ∧ (results.map SentimentResult.negative).sum / (results.length : ℚ) ≤ m
          ∧ (results.map SentimentResult.neutral).sum / (results.length : ℚ) ≤ m) := by
  constructor
  · rintro rfl
    exact ⟨rfl, rfl, rfl, rfl, rfl, rfl, rfl⟩
  · intro hne
    rcases results with _ | ⟨r, rs⟩
    · exact absurd rfl hne
    refine ⟨rfl, rfl, ?_⟩
    set p := ((r :: rs).map SentimentResult.positive).sum / (((r :: rs).length : ℚ))
      with hp
    set n := ((r :: rs).map SentimentResult.negative).sum / (((r :: rs).length : ℚ))
      with hn
    set u := ((r :: rs).map SentimentResult.neutral).sum / (((r :: rs).length : ℚ))
      with hu
    show ∃ m, (dominant_label p n u, m) ∈ _ ∧ p ≤ m ∧ n ≤ m ∧ u ≤ m
    unfold dominant_label
    by_cases h1 : p < n
    · simp only [if_pos h1]
      by_cases h2 : n < u
      · simp only [if_pos h2]
        exact ⟨u, by simp, by linarith, by linarith, le_rfl⟩
      · simp only [if_neg h2]
        exact ⟨n, by simp, by linarith, le_rfl, by linarith⟩
    · simp only [if_neg h1]
      by_cases h2 : p < u
      · simp only [if_pos h2]
        exact ⟨u, by simp, by linarith, by linarith, le_rfl⟩
      · simp only [if_neg h2]
        exact ⟨p, by simp, le_rfl, by linarith, by linarith⟩

/-- Claim **C7** witness: the spec instantiated on `[]` and on one concrete
result. -/
theorem aggregate_spec_witness :
    (aggregate "t0" "X" [] none none).sentiment_score = 50
    ∧ (aggregate "t0" "X" [sent_third] none none).avg_compound
      = roundTo 4 (([sent_third].map SentimentResult.positive).sum
          / (([sent_third].length : ℚ))
        - ([sent_third].map SentimentResult.negative).sum
          / (([sent_third].length : ℚ))) :=
  ⟨((aggregate_spec "t0" "X" [] none none).1 rfl).1,
   ((aggregate_spec "t0" "X" [sent_third] none none).2 (by simp)).1⟩

/-- Claim **C7** counterexample: for one article with positive mass `1/3` the
channel-mean difference is `1/3`, but the returned `avg_compound` is the
4-decimal rounding `0.3333` — the claim `compound = mean positive − mean
negative` fails on the stored field. -/
theorem aggregate_compound_rounding_counterexample :
    ([sent_third].map SentimentResult.positive).sum / (([sent_third].length : ℚ))
      - ([sent_third].map SentimentResult.negative).sum / (([sent_third].length : ℚ))
      = 1/3
    ∧ (aggregate "t0" "X" [sent_third] none none).avg_compound = 3333/10000
    ∧ (3333/10000 : ℚ) ≠ 1/3 := by
  refine ⟨?_, by with_unfolding_all rfl, by norm_num⟩
  simp [sent_third]

/-! ## C8 — zero-candidate short circuit -/

/-- Claim **C8**: when the fetch-and-construct stage yields no candidates,
`scan` returns the empty result with `total_candidates_evaluated = 0` and
invokes only the universe and fetch-construct stages — fundamentals,
sentiment, IV-rank, ML-inference and risk-scoring never run. -/
theorem scan_zero_candidates (P : Providers) (filters : ScannerFilters)
    (scan_id now : String) (elapsed : ℚ) (today : ℤ)
    (h : fetch_and_construct today P (UniverseBuilder.build filters) filters = []) :
    scan P filters scan_id now elapsed today
      = ({ scan_id := scan_id, scan_time := now, filters_used := filters,
           total_candidates_evaluated := 0, results := [],
           scan_duration_seconds := elapsed },
         [Stage.universe, Stage.fetch_construct])
    ∧ Stage.fundamentals ∉ (scan P filters scan_id now elapsed today).2
    ∧ Stage.sentiment ∉ (scan P filters scan_id now elapsed today).2
    ∧ Stage.iv_rank ∉ (scan P filters scan_id now elapsed today).2
    ∧ Stage.ml_inference ∉ (scan P filters scan_id now elapsed today).2
    ∧ Stage.risk_scoring ∉ (scan P filters scan_id now elapsed today).2 := by
  have hmain : scan P filters scan_id now elapsed today
      = ({ scan_id := scan_id, scan_time := now, filters_used := filters,
           total_candidates_evaluated := 0, results := [],
           scan_duration_seconds := elapsed },
         [Stage.universe, Stage.fetch_construct]) := by
    simp only [scan, h, List.isEmpty_nil, if_true, reduceIte]
  refine ⟨hmain, ?_, ?_, ?_, ?_, ?_⟩ <;> rw [hmain] <;> simp

/-- Claim **C8** witness: a one-symbol scan against `empty_providers`. -/
theorem scan_zero_candidates_witness :
    (scan empty_providers { default_filters with symbols := some ["SPY"] }
        "id0" "t0" 0 0).1.results = []
    ∧ (scan empty_providers { default_filters with symbols := some ["SPY"] }
        "id0" "t0" 0 0).1.total_candidates_evaluated = 0
    ∧ Stage.ml_inference ∉ (scan empty_providers
        { default_filters with symbols := some ["SPY"] } "id0" "t0" 0 0).2 := by
  obtain ⟨hmain, _, _, _, hml, _⟩ :=
    scan_zero_candidates empty_providers
      { default_filters with symbols := some ["SPY"] } "id0" "t0" 0 0
      (by with_unfolding_all rfl)
  exact ⟨by rw [hmain], by rw [hmain], hml⟩

/-- Claim **C2** (code bug): `OptionsScanner` instantiates `OptionsFilter` but
never calls it — `_fetch_and_construct` hands the raw chain straight to the
spread constructor.  On a chain whose every leg has volume 0 and open
interest 0, with `min_volume = 100` and `min_open_interest = 500`, the
pipeline still emits a candidate, even though `filter_legs` would reject
every one of its legs. -/
theorem legfilter_not_applied :
    fetch_and_construct 0 thin_chain_providers ["A"] c2_filters = [thin_candidate]
    ∧ thin_candidate.long_leg.volume = 0
    ∧ thin_candidate.long_leg.open_interest = 0
    ∧ c2_filters.min_volume = 100
    ∧ c2_filters.min_open_interest = 500
    ∧ filter_legs 0 [thin_call_long, thin_call_short] c2_filters
        SpreadType.bull_call = [] := by
  refine ⟨by with_unfolding_all rfl, rfl, rfl, rfl, rfl, by with_unfolding_all rfl⟩

/-! ## C10 — risk scorer's fundamental default -/

/-- Claim **C10**: if `fundamental_score` is `None` *or* `0.0`, Python's
`fundamentals.fundamental_score or 50.0` substitutes the neutral default:
the fundamental component of the composite is 50. -/
theorem risk_fundamental_zero_default (spread : SpreadCandidate)
    (fund : FundamentalData) (sent : TickerSentiment)
    (h : fund.fundamental_score = none ∨ fund.fundamental_score = some 0) :
    (RiskScorer.score spread fund sent).fundamental_component = 50
    ∧ ("fundamental", (50 : ℚ)) ∈ (RiskScorer.score spread fund sent).breakdown := by
  have hcomp : fundamental_component fund.fundamental_score = 50 := by
    rcases h with h | h <;> simp [fundamental_component, h]
  constructor
  · show roundTo 2 (fundamental_component fund.fundamental_score) = 50
    rw [hcomp, roundTo_fifty]
  · show ("fundamental", (50 : ℚ)) ∈ [_, _, ("fundamental",
      fundamental_component fund.fundamental_score), _, _]
    rw [hcomp]
    simp

theorem fetch_sentiment_one_strip (P : Providers) (now₁ now₂ s : String) :
    strip_sentiment_time (fetch_sentiment_one P now₁ s)
      = strip_sentiment_time (fetch_sentiment_one P now₂ s) := by
  unfold fetch_sentiment_one
  cases P.cache_sentiment s with
  | some t => rfl
  | none =>
    simp only
    split_ifs with h
    · rfl
    · unfold aggregate
      split_ifs with h2 <;> rfl

theorem fetch_sentiment_one_score (P : Providers) (now₁ now₂ s : String) :
    (fetch_sentiment_one P now₁ s).sentiment_score
      = (fetch_sentiment_one P now₂ s).sentiment_score := by
  have h := congrArg TickerSentiment.sentiment_score
    (fetch_sentiment_one_strip P now₁ now₂ s)
  exact h

theorem risk_score_sent_congr (c : SpreadCandidate) (f : FundamentalData)
    {s₁ s₂ : TickerSentiment} (h : s₁.sentiment_score = s₂.sentiment_score) :
    RiskScorer.score c f s₁ = RiskScorer.score c f s₂ := by
  unfold RiskScorer.score
  rw [h]

theorem stage8_filter_strip (filters : ScannerFilters)
    (fund_of : String → FundamentalData) (s₁ s₂ : String → TickerSentiment)
    (hs : ∀ y, strip_sentiment_time (s₁ y) = strip_sentiment_time (s₂ y)) :
    ∀ l, (stage8_filter filters fund_of s₁ l).map strip_times
        = (stage8_filter filters fund_of s₂ l).map strip_times := by
  intro l
  induction l with
  | nil => rfl
  | cons hd tl ih =>
    obtain ⟨⟨cand, ml⟩, risk⟩ := hd
    have hscore : (s₁ cand.underlying).sentiment_score
        = (s₂ cand.underlying).sentiment_score := by
      have h := congrArg TickerSentiment.sentiment_score (hs cand.underlying)
      exact h
    simp only [stage8_filter]
    rw [hscore]
    split_ifs with h1 h2 h3 h4
    · exact ih
    · exact ih
    · exact ih
    · exact ih
    · simp only [List.map_cons]
      rw [ih]
      have hhd : strip_times
          { rank := 0, spread := cand, fundamentals := fund_of cand.underlying,
            sentiment := s₁ cand.underlying, ml_prediction := ml, risk_score := risk }
          = strip_times
          { rank := 0, spread := cand, fundamentals := fund_of cand.underlying,
            sentiment := s₂ cand.underlying, ml_prediction := ml, risk_score := risk } := by
        unfold strip_times
        dsimp only
        rw [hs cand.underlying]
      rw [hhd]

theorem map_strip_orderedInsert (a : RankedSpread) :
    ∀ l : List RankedSpread,
      (l.orderedInsert ml_rel a).map strip_times
        = (l.map strip_times).orderedInsert ml_rel (strip_times a)
  | [] => rfl
  | b :: t => by
    by_cases h : ml_rel a b
    · rw [List.orderedInsert, if_pos h]
      simp only [List.map_cons]
      rw [List.orderedInsert, if_pos (show ml_rel (strip_times a) (strip_times b) from h)]
    · rw [List.orderedInsert, if_neg h]
      simp only [List.map_cons]
      rw [List.orderedInsert,
        if_neg (show ¬ml_rel (strip_times a) (strip_times b) from h),
        map_strip_orderedInsert a t]

theorem map_strip_insertionSort :
    ∀ l : List RankedSpread,
      (l.insertionSort ml_rel).map strip_times
        = (l.map strip_times).insertionSort ml_rel
  | [] => rfl
  | b :: t => by
    rw [List.insertionSort, map_strip_orderedInsert, map_strip_insertionSort t,
      List.map_cons, List.insertionSort]

theorem map_strip_assign_ranks :
    ∀ (i : ℕ) (l₁ l₂ : List RankedSpread),
      l₁.map strip_times = l₂.map strip_times →
      (assign_ranks i l₁).map strip_times = (assign_ranks i l₂).map strip_times := by
  intro i l₁
  induction l₁ generalizing i with
  | nil =>
    intro l₂ h
    rw [List.map_nil, eq_comm, List.map_eq_nil_iff] at h
    rw [h]
  | cons a t ih =>
    intro l₂ h
    cases l₂ with
    | nil => simp at h
    | cons b u =>
      simp only [List.map_cons, List.cons.injEq] at h
      obtain ⟨hab, htu⟩ := h
      simp only [assign_ranks, List.map_cons]
      rw [show strip_times { a with rank := i } = { (strip_times a) with rank := i }
          from rfl,
        show strip_times { b with rank := i } = { (strip_times b) with rank := i }
          from rfl,
        hab, ih (i + 1) u htu]

/-- Claim **C9**: with the same providers (`P`), the same filters, and the same
scan date, two invocations of `scan` — with different scan ids, clock
readings and durations — produce the same `total_candidates_evaluated`,
the same `filters_used`, and the same results up to the clock-derived
`analyzed_at` timestamps nested in each result's sentiment record; the
`scan_id` fields carry the respective ids. -/
theorem scan_deterministic (P : Providers) (filters : ScannerFilters)
    (id₁ id₂ now₁ now₂ : String) (e₁ e₂ : ℚ) (today : ℤ) :
    (scan P filters id₁ now₁ e₁ today).1.results.map strip_times
      = (scan P filters id₂ now₂ e₂ today).1.results.map strip_times
    ∧ (scan P filters id₁ now₁ e₁ today).1.total_candidates_evaluated
      = (scan P filters id₂ now₂ e₂ today).1.total_candidates_evaluated
    ∧ (scan P filters id₁ now₁ e₁ today).1.filters_used
      = (scan P filters id₂ now₂ e₂ today).1.filters_used
    ∧ (scan P filters id₁ now₁ e₁ today).1.scan_id = id₁
    ∧ (scan P filters id₂ now₂ e₂ today).1.scan_id = id₂ := by
  by_cases hempty :
      (fetch_and_construct today P (UniverseBuilder.build filters) filters).isEmpty
  · simp only [scan, hempty, reduceIte]
    refine ⟨?_, ?_, ?_, ?_, ?_⟩ <;> first | rfl | trivial
  · rw [Bool.not_eq_true] at hempty
    simp only [scan, hempty, Bool.false_eq_true, reduceIte]
    refine ⟨?_, by first | rfl | trivial, by first | rfl | trivial,
      by first | rfl | trivial, by first | rfl | trivial⟩
    have hs : ∀ y, strip_sentiment_time (fetch_sentiment_one P now₁ y)
        = strip_sentiment_time (fetch_sentiment_one P now₂ y) :=
      fetch_sentiment_one_strip P now₁ now₂
    have hrisk : ∀ (l : List SpreadCandidate),
        l.map (fun c => RiskScorer.score c (fetch_fundamentals_one P c.underlying)
          (fetch_sentiment_one P now₁ c.underlying))
        = l.map (fun c => RiskScorer.score c (fetch_fundamentals_one P c.underlying)
          (fetch_sentiment_one P now₂ c.underlying)) := fun l =>
      List.map_congr_left fun c _ =>
        risk_score_sent_congr c _ (fetch_sentiment_one_score P now₁ now₂ c.underlying)
    rw [hrisk]
    rw [List.map_take, List.map_take]
    congr 1
    apply map_strip_assign_ranks
    rw [map_strip_insertionSort, map_strip_insertionSort]
    congr 1
    exact stage8_filter_strip filters _ _ _ hs _

/-- Claim **C10** witness: a record carrying a true zero score is scored with the
neutral 50 component. -/
theorem risk_fundamental_zero_default_witness :
    (RiskScorer.score wit_leap_call_candidate
      { FundamentalData.default "P" with fundamental_score := some 0 }
      (neutral_sentiment "t0" "P")).fundamental_component = 50 :=
  (risk_fundamental_zero_default wit_leap_call_candidate
    { FundamentalData.default "P" with fundamental_score := some 0 }
    (neutral_sentiment "t0" "P") (Or.inr rfl)).1

end LeapsScanner
